import Mathlib

/-!
Verification of the build-rule generator module `src/blade/backend.py` of the
blade-build repository, against its natural-language specification.

The module is embedded shallowly: the generator state (the ordered text buffer
of appended rule chunks plus the set of declared rule names) is an explicit
record, every generator method becomes a pure state-passing function, and the
only fallible operations (the shell `pipefail` capability probe, which may fail
to spawn, and the fatal missing-go-home configuration error) are threaded
through `Except String`.

Conventions of the embedding:

* Python optional strings use truthiness (`if x:`); absent values are modelled
  as the empty string `""`, absent lists as `[]`, so the guards translate to
  `x != ""` and `x != []`.
* `config.get_section` and `config.get_item` reads, the options object, the
  toolchain and accelerator collaborators, `blade_util.load_scm` and the
  environment-dependent `os.path` operations (`abspath`, `relpath`) are fields
  of one read-only `Config` record.  `console.colored` (the `blade/console.py`
  module is not part of the sources) is an opaque string transformer field.
* Each `_add_rule(rule)` call appends the single buffer element `rule ++ "\n"`
  exactly as the Python `self.rules_buf.append('%s\n' % rule)` does, so the
  emitted script is the concatenation of the buffer elements.
-/

namespace Blade

/-- Buffer element produced by one `_add_rule` call: the rule text plus the
trailing newline that `_add_rule` adds (`'%s\n' % rule`). -/
def chunk (rule : String) : String := rule ++ "\n"

/-- State of `_NinjaFileHeaderGenerator`: the ordered rule-text buffer
`self.rules_buf` and the contents of the rule-name set
`self.__all_rule_names`.  The Python set is modelled by a duplicate-free list
holding the same elements (Python guarantees the contents, not the order). -/
structure GenState where
  rules_buf : List String
  all_rule_names : List String
deriving DecidableEq, Repr

/-- Translation of `_add_rule`: append one rule to the buffer. -/
def _add_rule (s : GenState) (rule : String) : GenState :=
  { s with rules_buf := s.rules_buf ++ [chunk rule] }

/-- Contents-faithful model of `set.add`: adds the name only if absent. -/
def setAdd (names : List String) (n : String) : List String :=
  if n ∈ names then names else names ++ [n]

/-- Translation of `get_all_rule_names` (returns `list(self.__all_rule_names)`;
the order of a Python set is unspecified, its contents are the model). -/
def get_all_rule_names (s : GenState) : List String := s.all_rule_names

/-- Keyword arguments of `generate_rule`.  `description`, `depfile`, `pool`,
`rspfile`, `rspfile_content` and `deps` default to `None` in the source and are
only ever tested for truthiness, so absent values are the empty string. -/
structure RuleArgs where
  name : String
  command : String
  description : String
  depfile : String
  generator : Bool
  pool : String
  restat : Bool
  rspfile : String
  rspfile_content : String
  deps : String
deriving DecidableEq, Repr

/-- Rule arguments with only name, command and description set. -/
def RuleArgs.simple (name command description : String) : RuleArgs :=
  ⟨name, command, description, "", false, "", false, "", "", ""⟩

/-- Conditionally emitted buffer element (one `if kwarg: self._add_rule(...)`
line of `generate_rule`). -/
def optChunk (cond : Bool) (rule : String) : List String :=
  if cond then [chunk rule] else []

/-- Buffer elements appended by one `generate_rule` call, in source order:
the rule header, the command, then each optional attribute line guarded by
truthiness of its keyword argument, and a final empty line. -/
def ruleChunks (colored : String → String) (a : RuleArgs) : List String :=
  [chunk ("rule " ++ a.name), chunk ("  command = " ++ a.command)]
  ++ optChunk (a.description != "") ("  description = " ++ colored a.description)
  ++ optChunk (a.depfile != "") ("  depfile = " ++ a.depfile)
  ++ optChunk a.generator "  generator = 1"
  ++ optChunk (a.pool != "") ("  pool = " ++ a.pool)
  ++ optChunk a.restat "  restat = 1"
  ++ optChunk (a.rspfile != "") ("  rspfile = " ++ a.rspfile)
  ++ optChunk (a.rspfile_content != "") ("  rspfile_content = " ++ a.rspfile_content)
  ++ optChunk (a.deps != "") ("  deps = " ++ a.deps)
  ++ [chunk ""]

/-- Translation of `generate_rule`: records the name in the rule-name set
(`set.add`, idempotent) and appends the rule block to the buffer.  The method
has no failure path: a duplicate name is accepted and a second block is
appended. -/
def generate_rule (colored : String → String) (s : GenState) (a : RuleArgs) : GenState :=
  { rules_buf := s.rules_buf ++ ruleChunks colored a,
    all_rule_names := setAdd s.all_rule_names a.name }

/-- Translation of `_incs_list_to_string`. -/
def _incs_list_to_string (incs : List String) : String :=
  " ".intercalate (incs.map (fun path => "-I " ++ path))

/-- Translation of `protoc_import_path_option`. -/
def protoc_import_path_option (incs : List String) : String :=
  " ".intercalate (incs.map (fun inc => "-I=" ++ inc))

/-- Executable test of whether `p` is a prefix of `s` (same semantics as
`String.startsWith`, phrased on the character lists). -/
def strStartsWith (s p : String) : Bool :=
  p.data.isPrefixOf s.data

/-- Executable test of whether `p` is a suffix of `s` (same semantics as
`String.endsWith`). -/
def strEndsWith (s p : String) : Bool :=
  p.data.reverse.isPrefixOf s.data.reverse

/-- Model of POSIX `os.path.join` on two components, as used by the module. -/
def pjoin (a b : String) : String :=
  if strStartsWith b "/" then b
  else if a = "" then b
  else if strEndsWith a "/" then a ++ b
  else a ++ ("/" ++ b)

/-- Model of `subprocess.call(cmd, shell=True)`: the outcome is an input of the
environment.  `Except.ok code` means the probe shell ran and exited with
`code`; `Except.error msg` means the probe process could not be spawned, in
which case `subprocess.call` raises `OSError` — the exception value is
propagated, not converted to a return code. -/
def subprocess_call (outcome : Except String Int) : Except String Int := outcome

/-- Translation of `_shell_support_pipefail`: returns
`subprocess.call('set -o pipefail 2>/dev/null', shell=True) == 0`.  There is no
exception handler, so a spawn failure of the probe propagates. -/
def _shell_support_pipefail (probe : Except String Int) : Except String Bool :=
  (subprocess_call probe).map (fun code => code == 0)

/-! ### The header-inclusion diagnostic filter (awk script and templates) -/

/-- The awk program of `generate_cc_rules`, exactly as it appears in the
generated build script (including the shell single-quotes and the `$$`
escaping that ninja later rewrites to `$`). -/
def awk_script : String :=
  "\x27BEGIN \x7bstop=0\x7d /^Multiple include guards may be useful for:/ \x7bstop=1\x7d !stop \x7bif ($$1 ~/^\\.+$$/) print $$0; else print $$0 > \"/dev/stderr\"\x7d\x27"

/-- Compile-rule command template chosen when the shell supports `pipefail`:
`'set -o pipefail && %%s -H 2>&1 | awk %s > ${out}.H' % awk_script`, applied
to the compile command. -/
def template_pipefail (cmd : String) : String :=
  "set -o pipefail && " ++ (cmd ++ (" -H 2>&1 | awk " ++ (awk_script ++ " > ${out}.H")))

/-- Compile-rule command template chosen when the shell does not support
`pipefail` (the temp-file workaround with explicit cleanup). -/
def template_workaround (cmd : String) : String :=
  cmd ++ (" -H 2> ${out}.err && awk " ++ (awk_script ++ " < ${out}.err > ${out}.H && rm -f ${out}.err"))

/-- Modelled awk semantics: the first field of a record under the default
field separator — the first maximal run of non-blank characters, or the empty
string for a blank record. -/
def awkFirstField (line : String) : String :=
  String.mk ((line.data.dropWhile (fun c => c == ' ' || c == '\t')).takeWhile
    (fun c => !(c == ' ' || c == '\t')))

/-- Whether a string matches the awk regular expression `/^\.+$/`: nonempty
and consisting only of dots. -/
def awkDotsOnly (s : String) : Bool :=
  !s.data.isEmpty && s.data.all (fun c => c == '.')

/-- Whether a line matches `/^Multiple include guards may be useful for:/`
(an unanchored-right match: the line starts with the sentinel text). -/
def sentinelStart (line : String) : Bool :=
  strStartsWith line "Multiple include guards may be useful for:"

/-- Modelled execution of the awk program of `awk_script` on the diagnostic
stream: the list of records it prints to standard output.  Records are
processed in order; a record starting with the sentinel sets the `stop` flag
before the printing rule runs; while `stop` is unset, a record whose first
field is a nonempty run of dots goes to standard output and every other
record goes to `/dev/stderr`. -/
def awkSplitStdout : Bool → List String → List String
  | _, [] => []
  | stop, l :: ls =>
      let stop2 := stop || sentinelStart l
      if !stop2 && awkDotsOnly (awkFirstField l) then l :: awkSplitStdout stop2 ls
      else awkSplitStdout stop2 ls

/-- Side file `${out}.H` produced by the `pipefail` variant: the compiler
diagnostic stream (stderr merged into stdout by `2>&1`) is piped into the awk
program, whose standard output is redirected to `${out}.H`. -/
def sideFile_pipefail (diag : List String) : List String :=
  awkSplitStdout false diag

/-- Side file `${out}.H` produced by the workaround variant: the diagnostic
stream is first written to `${out}.err`, then the same awk program reads that
file and its standard output is redirected to `${out}.H`. -/
def sideFile_workaround (diag : List String) : List String :=
  let errFileContents := diag
  awkSplitStdout false errFileContents

/-- Side-file contents as the specification words them: the lines before the
sentinel line that start with one or more dots.  This definition follows the
wording of the claim, for comparison with the behaviour of the code. -/
def claimedSideFile (diag : List String) : List String :=
  (diag.takeWhile (fun l => !(l == "Multiple include guards may be useful for:"))).filter
    (fun l => strStartsWith l ".")

/-! ### The fast/full preprocessing fallback -/

/-- Translation of `_hdrs_command`: the command that generates the inclusion
information file, built as the directives-only fast attempt, ` || `, and the
otherwise identical full attempt without `-fdirectives-only`. -/
def _hdrs_command (cc : String) (flags cppflags : List String) (includes : String) : String :=
  let args := "-o /dev/null -E -H " ++ ((" ".intercalate flags) ++ (" " ++ ((" ".intercalate cppflags) ++ (" -w ${cppflags} " ++ (includes ++ " ${includes} ${in} 2> ${out}")))))
  let preprocess1 := cc ++ (" -fdirectives-only " ++ args)
  let preprocess2 := cc ++ (" " ++ args)
  preprocess1 ++ (" || " ++ preprocess2)

/-- Modelled POSIX shell semantics of `A || B`: the exit code of the compound
command, given the exit codes the two commands would produce. -/
def shellOrExit (fast full : Nat) : Nat :=
  if fast = 0 then 0 else full

/-- Modelled POSIX shell semantics of `A || B`: whether the right command is
invoked at all. -/
def shellOrRunsFull (fast : Nat) : Bool :=
  fast != 0

/-! ### Configuration and environment inputs -/

/-- Read-only inputs of one generation pass: the options object, the
configuration sections read through `config.get_section` / `config.get_item`,
the toolchain and build-accelerator collaborators, and the environment-
dependent operations.  Fields keep the source names.  The fields
`colored` (from `blade/console.py`), `scm_revision` / `scm_url` (from
`blade_util.load_scm`), `os_path_abs_norm` (`os.path.normpath(os.path.abspath(...))`)
and `os_relpath` (`os.path.relpath`, which depends on the working directory)
stand for collaborator code outside this module and are opaque environment
functions or values. -/
structure Config where
  options_m : String
  profile : String
  gprof : Bool
  coverage : Bool
  build_dir : String
  blade_path : String
  debug_info_level : String
  debug_info_levels : String → List String
  warnings : List String
  cxx_warnings : List String
  c_warnings : List String
  cflags : List String
  cxxflags : List String
  cppflags : List String
  linkflags : List String
  extra_incs : List String
  optimize : List String
  securecc : String
  arflags : List String
  link_jobs : Nat
  build_jobs_num : Nat
  acc_cc : String
  acc_cxx : String
  acc_ld : String
  filter_cc_flags : List String → String → List String
  cc_name : String
  cc_version : String
  colored : String → String
  pipefail_probe : Except String Int
  protoc : String
  protoc_java : String
  protobuf_incs : List String
  protobuf_java_incs : List String
  protoc_go_plugin : String
  protobuf_go_path : String
  protoc_go_subplugins : List String
  go_home : String
  go : String
  go_module_enabled : Bool
  go_module_relpath : String
  java_home : String
  java_version : String
  source_version : Option String
  target_version : Option String
  jacoco_home : String
  one_jar_boot_jar : String
  scala_home : String
  thrift_incs : List String
  thrift_gen_params : String
  thrift : String
  sys_executable : String
  scm_revision : String
  scm_url : String
  os_path_abs_norm : String → String
  os_relpath : String → String → String

/-- Modelled from the spec: `console.fatal` (module `blade/console.py`, which
is not under the given sources) reports a configuration error immediately and
fatally, aborting generation so that no partial script is written; modelled as
`Except.error msg`. -/
def console_fatal (msg : String) : Except String α :=
  Except.error msg

/-! ### Native compile/link generator -/

/-- Translation of `_get_cc_flags`: returns `(cppflags, linkflags)`. -/
def _get_cc_flags (c : Config) : List String × List String :=
  let cppflags := if c.options_m != "" then ["-m" ++ c.options_m] else []
  let linkflags := if c.options_m != "" then ["-m" ++ c.options_m] else []
  let cppflags := cppflags ++ ["-pipe", "-fno-omit-frame-pointer"]
  let cppflags := cppflags ++ c.debug_info_levels c.debug_info_level
  let cppflags :=
    if c.profile = "debug" then cppflags ++ ["-fstack-protector"]
    else if c.profile = "release" then cppflags ++ ["-DNDEBUG"]
    else cppflags
  let cppflags := cppflags ++ ["-D_FILE_OFFSET_BITS=64", "-D__STDC_CONSTANT_MACROS",
    "-D__STDC_FORMAT_MACROS", "-D__STDC_LIMIT_MACROS"]
  let cppflags := if c.gprof then cppflags ++ ["-pg"] else cppflags
  let linkflags := if c.gprof then linkflags ++ ["-pg"] else linkflags
  let cppflags := if c.coverage then cppflags ++ ["--coverage"] else cppflags
  let linkflags := if c.coverage then linkflags ++ ["--coverage"] else linkflags
  (c.filter_cc_flags cppflags "", linkflags)

/-- Translation of `_get_warning_flags`: the filtered
`(cppflags, cxxflags, cflags)` warning triples. -/
def _get_warning_flags (c : Config) : List String × List String × List String :=
  (c.filter_cc_flags c.warnings "", c.filter_cc_flags c.cxx_warnings "c++",
   c.filter_cc_flags c.c_warnings "c")

/-- Buffer text appended by `generate_cc_vars` (the script-level variable
block for warning and optimize flags). -/
def generate_cc_vars_body (c : Config) : String :=
  let w := _get_warning_flags c
  let c_warnings := w.2.2 ++ w.1
  let cxx_warnings := w.2.1 ++ w.1
  let optimize := if c.profile = "release" then "$optimize_flags" else ""
  "c_warnings = " ++ ((" ".intercalate c_warnings) ++ ("\ncxx_warnings = " ++
    ((" ".intercalate cxx_warnings) ++ ("\noptimize_flags = " ++
    ((" ".intercalate c.optimize) ++ ("\noptimize = " ++ (optimize ++ "\n")))))))

/-- Translation of `generate_cc_vars`. -/
def generate_cc_vars (c : Config) (s : GenState) : GenState :=
  _add_rule s (generate_cc_vars_body c)

/-- The `-I...` include-path string of `generate_cc_rules`
(`extra_incs + ['.', build_dir]`). -/
def cc_includes (c : Config) : String :=
  " ".intercalate ((c.extra_incs ++ [".", c.build_dir]).map (fun inc => "-I" ++ inc))

/-- The combined preprocessor flags of `generate_cc_rules`
(`cc_config['cppflags'] + cppflags`). -/
def cc_cppflags_all (c : Config) : List String :=
  c.cppflags ++ (_get_cc_flags c).1

/-- The combined link flags of `generate_cc_rules`
(`cc_config['linkflags'] + ldflags`). -/
def cc_ldflags_all (c : Config) : List String :=
  c.linkflags ++ (_get_cc_flags c).2

/-- The C compile command of the `cc` rule (before the diagnostic-capture
template is applied). -/
def cc_compile_command (c : Config) : String :=
  c.acc_cc ++ (" -o ${out} -MMD -MF ${out}.d -c -fPIC " ++ ((" ".intercalate c.cflags) ++
    (" " ++ ((" ".intercalate (cc_cppflags_all c)) ++
    (" ${optimize} ${c_warnings} ${cppflags} " ++ (cc_includes c ++ " ${includes} ${in}"))))))

/-- The C++ compile command of the `cxx` rule (before the diagnostic-capture
template is applied). -/
def cxx_compile_command (c : Config) : String :=
  c.acc_cxx ++ (" -o ${out} -MMD -MF ${out}.d -c -fPIC " ++ ((" ".intercalate c.cxxflags) ++
    (" " ++ ((" ".intercalate (cc_cppflags_all c)) ++
    (" ${optimize} ${cxx_warnings} ${cppflags} " ++ (cc_includes c ++ " ${includes} ${in}"))))))

/-- Translation of `_builtin_command`: search-path setup, optional custom
argument, dispatcher invocation, then the custom suffix or `${out} ${in}`. -/
def _builtin_command (c : Config) (builder pfx sfx : String) : String :=
  let cmd := ["PYTHONPATH=" ++ (c.blade_path ++ ":$$PYTHONPATH")]
  let cmd := if pfx != "" then cmd ++ [pfx] else cmd
  let cmd := cmd ++ [c.sys_executable ++ (" -m blade.builtin_tools " ++ builder)]
  let cmd := if sfx != "" then cmd ++ [sfx] else cmd ++ ["${out} ${in}"]
  " ".intercalate cmd

/-- Arguments of the `cc` rule. -/
def ccArgs (c : Config) (support : Bool) : RuleArgs :=
  { RuleArgs.simple "cc"
      ((if support then template_pipefail else template_workaround) (cc_compile_command c))
      "CC ${in}" with
    depfile := "${out}.d", deps := "gcc" }

/-- Arguments of the `cxx` rule. -/
def cxxArgs (c : Config) (support : Bool) : RuleArgs :=
  { RuleArgs.simple "cxx"
      ((if support then template_pipefail else template_workaround) (cxx_compile_command c))
      "CXX ${in}" with
    depfile := "${out}.d", deps := "gcc" }

/-- Arguments of the `securecccompile` rule (`securecc = '%s %s' % (cc_config['securecc'], cxx)`). -/
def securecccompileArgs (c : Config) : RuleArgs :=
  RuleArgs.simple "securecccompile"
    ((c.securecc ++ (" " ++ c.acc_cxx)) ++ (" -o ${out} -c -fPIC " ++
      ((" ".intercalate c.cxxflags) ++ (" " ++ ((" ".intercalate (cc_cppflags_all c)) ++
      (" ${optimize} ${cxx_warnings} ${cppflags} " ++ (cc_includes c ++ " ${includes} ${in}")))))))
    "SECURECC ${in}"

/-- Arguments of the `securecc` rule. -/
def secureccArgs (c : Config) : RuleArgs :=
  { RuleArgs.simple "securecc" (_builtin_command c "securecc_object" "" "") "SECURECC ${in}" with
    restat := true }

/-- Arguments of the `ar` rule (`arflags = ''.join(...)`). -/
def arArgs (c : Config) : RuleArgs :=
  RuleArgs.simple "ar" ("rm -f $out; ar " ++ (String.join c.arflags ++ " $out $in")) "AR ${out}"

/-- Arguments of the `link` rule with the pool chosen by `generate_cc_rules`. -/
def linkArgs (c : Config) (pool : String) : RuleArgs :=
  { RuleArgs.simple "link"
      (c.acc_ld ++ (" -o ${out} " ++ ((" ".intercalate (cc_ldflags_all c)) ++
        " ${ldflags} ${in} ${extra_ldflags}")))
      "LINK ${out}" with
    pool := pool }

/-- Arguments of the `solink` rule with the pool chosen by `generate_cc_rules`. -/
def solinkArgs (c : Config) (pool : String) : RuleArgs :=
  { RuleArgs.simple "solink"
      (c.acc_ld ++ (" -o ${out} -shared " ++ ((" ".intercalate (cc_ldflags_all c)) ++
        " ${ldflags} ${in} ${extra_ldflags}")))
      "SHAREDLINK ${out}" with
    pool := pool }

/-- Arguments of the `strip` rule. -/
def stripArgs : RuleArgs :=
  RuleArgs.simple "strip" "strip --strip-unneeded -o ${out} ${in}" "STRIP ${out}"

/-- Body of `generate_cc_rules` after the capability probe succeeded with
result `support`.  The `console.info` progress message of the link-pool branch
prints to the console and does not touch the buffer. -/
def ccSteps (c : Config) (support : Bool) (s : GenState) : GenState :=
  let s := generate_cc_vars c s
  let s := generate_rule c.colored s (ccArgs c support)
  let s := generate_rule c.colored s (cxxArgs c support)
  let s := generate_rule c.colored s (securecccompileArgs c)
  let s := generate_rule c.colored s (secureccArgs c)
  let s := generate_rule c.colored s (arArgs c)
  let pool := if c.link_jobs != 0 then "link_pool" else ""
  let s := if c.link_jobs != 0 then
      _add_rule s ("pool link_pool\n  depth = " ++ toString (min c.link_jobs c.build_jobs_num))
    else s
  let s := generate_rule c.colored s (linkArgs c pool)
  let s := generate_rule c.colored s (solinkArgs c pool)
  generate_rule c.colored s stripArgs

/-- Translation of `generate_cc_rules`.  The `_shell_support_pipefail()` call
selects the template; if the probe process cannot be spawned the `OSError`
from `subprocess.call` propagates out of the generator. -/
def generate_cc_rules (c : Config) (s : GenState) : Except String GenState :=
  match _shell_support_pipefail c.pipefail_probe with
  | Except.error e => Except.error e
  | Except.ok support => Except.ok (ccSteps c support s)

/-! ### Remaining per-domain generators -/

/-- Translation of `generate_file_header`: the script header block and the
mandatory depth-1 `heavy_pool`. -/
def generate_file_header (c : Config) (s : GenState) : GenState :=
  let s := _add_rule s ("# build.ninja generated by blade\nninja_required_version = 1.7\nbuilddir = " ++ (c.build_dir ++ "\n"))
  _add_rule s "pool heavy_pool\n  depth = 1\n"

/-- Arguments of the `copy` rule. -/
def copyArgs : RuleArgs :=
  RuleArgs.simple "copy" "cp -f ${in} ${out}" "COPY ${in} ${out}"

/-- Translation of `generate_common_rules`. -/
def generate_common_rules (c : Config) (s : GenState) : GenState :=
  generate_rule c.colored s copyArgs

/-- Resolved `protoc_java` (falls back to `protoc`). -/
def proto_protoc_java (c : Config) : String :=
  if c.protoc_java != "" then c.protoc_java else c.protoc

/-- Resolved java import-path option string (falls back to the generic one). -/
def proto_java_incs (c : Config) : String :=
  if c.protobuf_java_incs != [] then protoc_import_path_option c.protobuf_java_incs
  else protoc_import_path_option c.protobuf_incs

/-- Arguments of the `proto` rule. -/
def protoArgs (c : Config) : RuleArgs :=
  RuleArgs.simple "proto"
    (c.protoc ++ (" --proto_path=. " ++ ((protoc_import_path_option c.protobuf_incs) ++
      (" -I=`dirname ${in}` --cpp_out=" ++
      (c.build_dir ++ " ${protocflags} ${protoccpppluginflags} ${in}")))))
    "PROTOC ${in}"

/-- Arguments of the `protojava` rule. -/
def protojavaArgs (c : Config) : RuleArgs :=
  RuleArgs.simple "protojava"
    ((proto_protoc_java c) ++ (" --proto_path=. " ++ ((proto_java_incs c) ++
      (" --java_out=" ++ (c.build_dir ++ "/`dirname ${in}` ${protocjavapluginflags} ${in}")))))
    "PROTOCJAVA ${in}"

/-- Arguments of the `protopython` rule. -/
def protopythonArgs (c : Config) : RuleArgs :=
  RuleArgs.simple "protopython"
    (c.protoc ++ (" --proto_path=. " ++ ((protoc_import_path_option c.protobuf_incs) ++
      (" -I=`dirname ${in}` --python_out=" ++
      (c.build_dir ++ " ${protocpythonpluginflags} ${in}")))))
    "PROTOCPYTHON ${in}"

/-- Arguments of the `protodescriptors` rule. -/
def protodescriptorsArgs (c : Config) : RuleArgs :=
  RuleArgs.simple "protodescriptors"
    (c.protoc ++ (" --proto_path=. " ++ ((protoc_import_path_option c.protobuf_incs) ++
      " -I=`dirname ${first}` --descriptor_set_out=${out} --include_imports --include_source_info ${in}")))
    "PROTODESCRIPTORS ${in}"

/-- Output directory of the Go protobuf rule: the configured
`protobuf_go_path` when module mode is on and no module-relative path is set,
otherwise `os.path.join(go_home, 'src')`. -/
def proto_go_outdir (c : Config) : String :=
  if c.go_module_enabled && (c.go_module_relpath == "") then c.protobuf_go_path
  else pjoin c.go_home "src"

/-- The `--go_out` argument: sub-plugins joined with `+`, or the bare
output directory. -/
def proto_go_out (c : Config) : String :=
  if c.protoc_go_subplugins != [] then
    "plugins=" ++ (("+".intercalate c.protoc_go_subplugins) ++ (":" ++ proto_go_outdir c))
  else proto_go_outdir c

/-- Arguments of the `protogo` rule. -/
def protogoArgs (c : Config) : RuleArgs :=
  RuleArgs.simple "protogo"
    (c.protoc ++ (" --proto_path=. " ++ ((protoc_import_path_option c.protobuf_incs) ++
      (" -I=`dirname ${in}` --plugin=protoc-gen-go=" ++ (c.protoc_go_plugin ++
      (" --go_out=" ++ ((proto_go_out c) ++ " ${in}")))))))
    "PROTOCGOLANG ${in}"

/-- Translation of `generate_proto_rules`: the plugin-flag variable block, the
four language rules, then — only when a Go plugin is configured — the fatal
missing-go-home check followed by the `protogo` rule. -/
def generate_proto_rules (c : Config) (s : GenState) : Except String GenState :=
  let s := _add_rule s "protocflags =\nprotoccpppluginflags =\nprotocjavapluginflags =\nprotocpythonpluginflags =\n"
  let s := generate_rule c.colored s (protoArgs c)
  let s := generate_rule c.colored s (protojavaArgs c)
  let s := generate_rule c.colored s (protopythonArgs c)
  let s := generate_rule c.colored s (protodescriptorsArgs c)
  if c.protoc_go_plugin != "" then
    if c.go_home = "" then console_fatal "\"go_config.go_home\" is not configured"
    else Except.ok (generate_rule c.colored s (protogoArgs c))
  else Except.ok s

/-- Arguments of the `resource_index` rule. -/
def resource_indexArgs (c : Config) : RuleArgs :=
  RuleArgs.simple "resource_index"
    (_builtin_command c "resource_index" "" "${name} ${path} ${out} ${in}")
    "RESOURCE INDEX ${out}"

/-- Arguments of the `resource` rule. -/
def resourceArgs : RuleArgs :=
  RuleArgs.simple "resource"
    "xxd -i ${in} | sed -e \"s/^unsigned char /const char RESOURCE_/g\" -e \"s/^unsigned int /const unsigned int RESOURCE_/g\" > ${out}"
    "RESOURCE ${in}"

/-- Translation of `generate_resource_rules`. -/
def generate_resource_rules (c : Config) (s : GenState) : GenState :=
  let s := generate_rule c.colored s (resource_indexArgs c)
  generate_rule c.colored s resourceArgs

/-- Translation of `get_java_command`: resolve against `java_home/bin` or fall
back to the bare command. -/
def get_java_command (c : Config) (cmd : String) : String :=
  if c.java_home != "" then pjoin (pjoin c.java_home "bin") cmd else cmd

/-- Translation of `get_jacocoagent`. -/
def get_jacocoagent (c : Config) : String :=
  if c.jacoco_home != "" then pjoin (pjoin c.jacoco_home "lib") "jacocoagent.jar" else ""

/-- The javac command fragment list of `generate_javac_rules`. -/
def javac_cmd (c : Config) : List String :=
  let javac := get_java_command c "javac"
  let source_version := c.source_version.getD c.java_version
  let target_version := c.target_version.getD c.java_version
  [javac]
  ++ (if source_version != "" then ["-source " ++ source_version] else [])
  ++ (if target_version != "" then ["-target " ++ target_version] else [])
  ++ ["-encoding ${source_encoding}", "-d ${classes_dir}", "-classpath ${classpath}",
      "${javacflags}", "${in}"]

/-- Arguments of the `javac` rule. -/
def javacArgs (c : Config) : RuleArgs :=
  RuleArgs.simple "javac"
    ("rm -fr ${classes_dir} && mkdir -p ${classes_dir} && " ++
      ((" ".intercalate (javac_cmd c)) ++ (" && sleep 0.01 && " ++
      ((get_java_command c "jar") ++ " cf ${out} -C ${classes_dir} ."))))
    "JAVAC ${out}"

/-- Translation of `generate_javac_rules`: the variable block and the `javac`
rule. -/
def generate_javac_rules (c : Config) (s : GenState) : GenState :=
  let s := _add_rule s "source_encoding = UTF-8\nclasspath = .\njavacflags =\n"
  generate_rule c.colored s (javacArgs c)

/-- Arguments of the `javaresource` rule. -/
def javaresourceArgs (c : Config) : RuleArgs :=
  RuleArgs.simple "javaresource" (_builtin_command c "java_resource" "" "") "JAVA RESOURCE ${in}"

/-- Translation of `generate_java_resource_rules`. -/
def generate_java_resource_rules (c : Config) (s : GenState) : GenState :=
  generate_rule c.colored s (javaresourceArgs c)

/-- Arguments of the `javatest` rule. -/
def javatestArgs (c : Config) : RuleArgs :=
  RuleArgs.simple "javatest"
    (_builtin_command c "java_test" ""
      ("--script=${out} --main_class=${mainclass} --jacocoagent=" ++
        (get_jacocoagent c ++ " --packages_under_test=${packages_under_test} ${in}")))
    "JAVA TEST ${out}"

/-- Translation of `generate_java_test_rules`. -/
def generate_java_test_rules (c : Config) (s : GenState) : GenState :=
  generate_rule c.colored s (javatestArgs c)

/-- Arguments of the `onejar` rule. -/
def onejarArgs (c : Config) : RuleArgs :=
  RuleArgs.simple "onejar"
    (_builtin_command c "java_onejar" ""
      ("--onejar=${out} --bootjar=" ++ (c.one_jar_boot_jar ++ " --main_class=${mainclass} ${in}")))
    "ONE JAR ${out}"

/-- Arguments of the `javabinary` rule. -/
def javabinaryArgs (c : Config) : RuleArgs :=
  RuleArgs.simple "javabinary" (_builtin_command c "java_binary" "" "") "JAVA BIN ${out}"

/-- Translation of `generate_java_binary_rules`. -/
def generate_java_binary_rules (c : Config) (s : GenState) : GenState :=
  let s := generate_rule c.colored s (onejarArgs c)
  generate_rule c.colored s (javabinaryArgs c)

/-- Arguments of the `javajar` rule. -/
def javajarArgs (c : Config) : RuleArgs :=
  RuleArgs.simple "javajar"
    (_builtin_command c "java_jar" "" ((get_java_command c "jar") ++ " ${out} ${in}"))
    "JAVA JAR ${out}"

/-- Arguments of the `fatjar` rule. -/
def fatjarArgs (c : Config) : RuleArgs :=
  RuleArgs.simple "fatjar" (_builtin_command c "java_fatjar" "" "") "FAT JAR ${out}"

/-- Arguments of the `scalac` rule. -/
def scalacArgs (c : Config) : RuleArgs :=
  let scalac := if c.scala_home != "" then pjoin (pjoin c.scala_home "bin") "scalac" else "scalac"
  let java := get_java_command c "java"
  RuleArgs.simple "scalac"
    (" ".intercalate (["JAVACMD=" ++ java, scalac, "-encoding UTF8", "-d ${out}",
      "-classpath ${classpath}", "${scalacflags}", "${in}"]))
    "SCALAC ${out}"

/-- Translation of `generate_scalac_rule`: the `scalacflags` variable block
and the `scalac` rule. -/
def generate_scalac_rule (c : Config) (s : GenState) : GenState :=
  let s := _add_rule s "scalacflags = -nowarn\n"
  generate_rule c.colored s (scalacArgs c)

/-- Arguments of the `scalatest` rule. -/
def scalatestArgs (c : Config) : RuleArgs :=
  let java := get_java_command c "java"
  let scala := if c.scala_home != "" then pjoin (pjoin c.scala_home "bin") "scala" else "scala"
  RuleArgs.simple "scalatest"
    (_builtin_command c "scala_test" ""
      ("--java=" ++ (java ++ (" --scala=" ++ (scala ++ (" --jacocoagent=" ++
        ((get_jacocoagent c) ++ " --packages_under_test=${packages_under_test} --script=${out} ${in}")))))))
    "SCALA TEST ${out}"

/-- Translation of `generate_scalatest_rule`. -/
def generate_scalatest_rule (c : Config) (s : GenState) : GenState :=
  generate_rule c.colored s (scalatestArgs c)

/-- Translation of `generate_java_scala_rules`, in source order. -/
def generate_java_scala_rules (c : Config) (s : GenState) : GenState :=
  let s := generate_javac_rules c s
  let s := generate_java_resource_rules c s
  let s := generate_rule c.colored s (javajarArgs c)
  let s := generate_java_test_rules c s
  let s := generate_rule c.colored s (fatjarArgs c)
  let s := generate_java_binary_rules c s
  let s := generate_scalac_rule c s
  generate_scalatest_rule c s

/-- The thrift binary, with an in-tree `//`-path rewritten against the build
directory (`str.replace` replaces every occurrence, as in Python). -/
def thrift_bin_resolved (c : Config) : String :=
  if strStartsWith c.thrift "//" then
    (c.thrift.replace "//" (c.build_dir ++ "/")).replace ":" "/"
  else c.thrift

/-- Arguments of the `thrift` rule. -/
def thriftArgs (c : Config) : RuleArgs :=
  RuleArgs.simple "thrift"
    ((thrift_bin_resolved c) ++ (" --gen " ++ (c.thrift_gen_params ++ (" -I . " ++
      ((_incs_list_to_string c.thrift_incs) ++ (" -I `dirname ${in}` -out " ++
      (c.build_dir ++ "/`dirname ${in}` ${in}")))))))
    "THRIFT ${in}"

/-- Translation of `generate_thrift_rules`. -/
def generate_thrift_rules (c : Config) (s : GenState) : GenState :=
  generate_rule c.colored s (thriftArgs c)

/-- Arguments of the `pythonlibrary` rule. -/
def pythonlibraryArgs (c : Config) : RuleArgs :=
  RuleArgs.simple "pythonlibrary"
    (_builtin_command c "python_library" "" "--basedir=${basedir} --pylib=${out} ${in}")
    "PYTHON LIBRARY ${out}"

/-- Arguments of the `pythonbinary` rule. -/
def pythonbinaryArgs (c : Config) : RuleArgs :=
  RuleArgs.simple "pythonbinary"
    (_builtin_command c "python_binary" ""
      "--basedir=${basedir} --exclusions=${exclusions} --mainentry=${mainentry} --pybin=${out} ${in}")
    "PYTHON BINARY ${out}"

/-- Translation of `generate_python_rules`. -/
def generate_python_rules (c : Config) (s : GenState) : GenState :=
  let s := generate_rule c.colored s (pythonlibraryArgs c)
  generate_rule c.colored s (pythonbinaryArgs c)

/-- The command stem of the Go rules: module-mode invocation (optionally
re-rooted at the module-relative path) or a `GOPATH=...` environment
override. -/
def go_pfx (c : Config) : String :=
  if c.go_module_enabled then
    if c.go_module_relpath != "" then
      "cd " ++ (c.go_module_relpath ++ (" && " ++ c.os_relpath c.go c.go_module_relpath))
    else c.go
  else "GOPATH=" ++ (c.os_path_abs_norm c.go_home ++ (" " ++ c.go))

/-- The output prefix of the Go build/test rules: the module-relative path of
the working directory with a trailing slash, or empty. -/
def go_out_relative (c : Config) : String :=
  if c.go_module_enabled && (c.go_module_relpath != "") then
    pjoin (c.os_relpath "./" c.go_module_relpath) ""
  else ""

/-- Arguments of the `gopackage` rule. -/
def gopackageArgs (c : Config) : RuleArgs :=
  { RuleArgs.simple "gopackage" ((go_pfx c) ++ " install ${extra_goflags} ${package}")
      "GO INSTALL ${package}" with
    pool := "golang_pool" }

/-- Arguments of the `gocommand` rule. -/
def gocommandArgs (c : Config) : RuleArgs :=
  { RuleArgs.simple "gocommand"
      ((go_pfx c) ++ (" build -o " ++ ((go_out_relative c) ++ "${out} ${extra_goflags} ${package}")))
      "GO BUILD ${package}" with
    pool := "golang_pool" }

/-- Arguments of the `gotest` rule. -/
def gotestArgs (c : Config) : RuleArgs :=
  { RuleArgs.simple "gotest"
      ((go_pfx c) ++ (" test -c -o " ++ ((go_out_relative c) ++ "${out} ${extra_goflags} ${package}")))
      "GO TEST ${package}" with
    pool := "golang_pool" }

/-- Translation of `generate_go_rules`: inactive unless both Go home and the
Go executable are configured; otherwise the depth-1 `golang_pool` then the
three Go rules, all assigned to that pool. -/
def generate_go_rules (c : Config) (s : GenState) : GenState :=
  if c.go_home != "" && c.go != "" then
    let s := _add_rule s "pool golang_pool\n  depth = 1\n"
    let s := generate_rule c.colored s (gopackageArgs c)
    let s := generate_rule c.colored s (gocommandArgs c)
    generate_rule c.colored s (gotestArgs c)
  else s

/-- Arguments of the `shelltest` rule. -/
def shelltestArgs (c : Config) : RuleArgs :=
  RuleArgs.simple "shelltest" (_builtin_command c "shell_test" "" "") "SHELL TEST ${out}"

/-- Arguments of the `shelltestdata` rule. -/
def shelltestdataArgs (c : Config) : RuleArgs :=
  RuleArgs.simple "shelltestdata"
    (_builtin_command c "shell_testdata" "" "${out} ${in} ${testdata}")
    "SHELL TEST DATA ${out}"

/-- Translation of `generate_shell_rules`. -/
def generate_shell_rules (c : Config) (s : GenState) : GenState :=
  let s := generate_rule c.colored s (shelltestArgs c)
  generate_rule c.colored s (shelltestdataArgs c)

/-- Arguments of the `lex` rule. -/
def lexArgs : RuleArgs :=
  RuleArgs.simple "lex" "flex ${lexflags} -o ${out} ${in}" "LEX ${in}"

/-- Arguments of the `yacc` rule. -/
def yaccArgs : RuleArgs :=
  RuleArgs.simple "yacc" "bison ${yaccflags} -o ${out} ${in}" "YACC ${in}"

/-- Translation of `generate_lex_yacc_rules`. -/
def generate_lex_yacc_rules (c : Config) (s : GenState) : GenState :=
  let s := generate_rule c.colored s lexArgs
  generate_rule c.colored s yaccArgs

/-- Arguments of the `package` rule. -/
def packageArgs (c : Config) : RuleArgs :=
  RuleArgs.simple "package" (_builtin_command c "package" "" "${out} ${in} ${entries}")
    "PACKAGE ${out}"

/-- Arguments of the `package_tar` rule. -/
def package_tarArgs : RuleArgs :=
  RuleArgs.simple "package_tar" "tar -c -f ${out} ${tarflags} -C ${packageroot} ${entries}"
    "TAR ${out}"

/-- Arguments of the `package_zip` rule. -/
def package_zipArgs : RuleArgs :=
  RuleArgs.simple "package_zip"
    "cd ${packageroot} && zip -q temp_archive.zip ${entries} && cd - && mv ${packageroot}/temp_archive.zip ${out}"
    "ZIP ${out}"

/-- Translation of `generate_package_rules`. -/
def generate_package_rules (c : Config) (s : GenState) : GenState :=
  let s := generate_rule c.colored s (packageArgs c)
  let s := generate_rule c.colored s package_tarArgs
  generate_rule c.colored s package_zipArgs

/-- Arguments of the `scm` rule. -/
def scmArgs (c : Config) : RuleArgs :=
  RuleArgs.simple "scm"
    (_builtin_command c "scm" ""
      "--scm=${out} --revision=${revision} --url=${url} --profile=${profile} --compiler=\"${compiler}\"")
    "SCM ${out}"

/-- Path of the generated version-stamp translation unit. -/
def scm_cc_path (c : Config) : String :=
  pjoin c.build_dir "scm.cc"

/-- Translation of `generate_version_rules`: the `scm` rule plus the two raw
build statements for the version translation unit. -/
def generate_version_rules (c : Config) (s : GenState) : GenState :=
  let s := generate_rule c.colored s (scmArgs c)
  let scm := scm_cc_path c
  let s := _add_rule s ("build " ++ (scm ++ (": scm\n  revision = " ++ (c.scm_revision ++
    ("\n  url = " ++ (c.scm_url ++ ("\n  profile = " ++ (c.profile ++
    ("\n  compiler = " ++ (c.cc_name ++ (" " ++ (c.cc_version ++ "\n"))))))))))))
  _add_rule s ("build " ++ (scm ++ (".o: cxx " ++ (scm ++ "\n  cppflags = -w -O2\n  cxx_warnings =\n"))))

/-- Translation of `generate`: the fixed generator sequence starting from the
fresh state of `__init__`, returning the accumulated buffer.  A fatal error
(a failed probe spawn or the missing-go-home configuration error) aborts the
pass so that no script is produced. -/
def generate (c : Config) : Except String (List String) :=
  let s : GenState := ⟨[], []⟩
  let s := generate_file_header c s
  let s := generate_common_rules c s
  match generate_cc_rules c s with
  | Except.error e => Except.error e
  | Except.ok s =>
    match generate_proto_rules c s with
    | Except.error e => Except.error e
    | Except.ok s =>
      let s := generate_resource_rules c s
      let s := generate_java_scala_rules c s
      let s := generate_thrift_rules c s
      let s := generate_python_rules c s
      let s := generate_go_rules c s
      let s := generate_shell_rules c s
      let s := generate_lex_yacc_rules c s
      let s := generate_package_rules c s
      let s := generate_version_rules c s
      Except.ok s.rules_buf

/-! ### Buffer decomposition: the chunks appended by each generator -/

/-- Chunks appended by `generate_file_header`. -/
def headerChunks (c : Config) : List String :=
  [chunk ("# build.ninja generated by blade\nninja_required_version = 1.7\nbuilddir = " ++ (c.build_dir ++ "\n")),
   chunk "pool heavy_pool\n  depth = 1\n"]

/-- Chunks appended by `generate_common_rules`. -/
def commonChunks (c : Config) : List String :=
  ruleChunks c.colored copyArgs

/-- The `link_pool` declaration chunk with the clamped depth. -/
def linkPoolDeclChunk (c : Config) : String :=
  chunk ("pool link_pool\n  depth = " ++ toString (min c.link_jobs c.build_jobs_num))

/-- Chunks appended by `generate_cc_rules` (via `ccSteps`). -/
def ccChunks (c : Config) (support : Bool) : List String :=
  [chunk (generate_cc_vars_body c)]
  ++ ruleChunks c.colored (ccArgs c support)
  ++ ruleChunks c.colored (cxxArgs c support)
  ++ ruleChunks c.colored (securecccompileArgs c)
  ++ ruleChunks c.colored (secureccArgs c)
  ++ ruleChunks c.colored (arArgs c)
  ++ (if c.link_jobs != 0 then [linkPoolDeclChunk c] else [])
  ++ ruleChunks c.colored (linkArgs c (if c.link_jobs != 0 then "link_pool" else ""))
  ++ ruleChunks c.colored (solinkArgs c (if c.link_jobs != 0 then "link_pool" else ""))
  ++ ruleChunks c.colored stripArgs

/-- Chunks appended by a successful `generate_proto_rules`. -/
def protoChunks (c : Config) : List String :=
  [chunk "protocflags =\nprotoccpppluginflags =\nprotocjavapluginflags =\nprotocpythonpluginflags =\n"]
  ++ ruleChunks c.colored (protoArgs c)
  ++ ruleChunks c.colored (protojavaArgs c)
  ++ ruleChunks c.colored (protopythonArgs c)
  ++ ruleChunks c.colored (protodescriptorsArgs c)
  ++ (if c.protoc_go_plugin != "" then ruleChunks c.colored (protogoArgs c) else [])

/-- Chunks appended by `generate_resource_rules`. -/
def resourceChunks (c : Config) : List String :=
  ruleChunks c.colored (resource_indexArgs c) ++ ruleChunks c.colored resourceArgs

/-- Chunks appended by `generate_java_scala_rules`. -/
def javaScalaChunks (c : Config) : List String :=
  [chunk "source_encoding = UTF-8\nclasspath = .\njavacflags =\n"]
  ++ ruleChunks c.colored (javacArgs c)
  ++ ruleChunks c.colored (javaresourceArgs c)
  ++ ruleChunks c.colored (javajarArgs c)
  ++ ruleChunks c.colored (javatestArgs c)
  ++ ruleChunks c.colored (fatjarArgs c)
  ++ ruleChunks c.colored (onejarArgs c)
  ++ ruleChunks c.colored (javabinaryArgs c)
  ++ [chunk "scalacflags = -nowarn\n"]
  ++ ruleChunks c.colored (scalacArgs c)
  ++ ruleChunks c.colored (scalatestArgs c)

/-- Chunks appended by `generate_thrift_rules`. -/
def thriftChunks (c : Config) : List String :=
  ruleChunks c.colored (thriftArgs c)

/-- Chunks appended by `generate_python_rules`. -/
def pythonChunks (c : Config) : List String :=
  ruleChunks c.colored (pythonlibraryArgs c) ++ ruleChunks c.colored (pythonbinaryArgs c)

/-- Chunks appended by `generate_go_rules`. -/
def goChunks (c : Config) : List String :=
  if c.go_home != "" && c.go != "" then
    [chunk "pool golang_pool\n  depth = 1\n"]
    ++ ruleChunks c.colored (gopackageArgs c)
    ++ ruleChunks c.colored (gocommandArgs c)
    ++ ruleChunks c.colored (gotestArgs c)
  else []

/-- Chunks appended by `generate_shell_rules`. -/
def shellChunks (c : Config) : List String :=
  ruleChunks c.colored (shelltestArgs c) ++ ruleChunks c.colored (shelltestdataArgs c)

/-- Chunks appended by `generate_lex_yacc_rules`. -/
def lexYaccChunks (c : Config) : List String :=
  ruleChunks c.colored lexArgs ++ ruleChunks c.colored yaccArgs

/-- Chunks appended by `generate_package_rules`. -/
def packageChunks (c : Config) : List String :=
  ruleChunks c.colored (packageArgs c) ++ ruleChunks c.colored package_tarArgs
  ++ ruleChunks c.colored package_zipArgs

/-- Chunks appended by `generate_version_rules`. -/
def versionChunks (c : Config) : List String :=
  ruleChunks c.colored (scmArgs c)
  ++ [chunk ("build " ++ (scm_cc_path c ++ (": scm\n  revision = " ++ (c.scm_revision ++
       ("\n  url = " ++ (c.scm_url ++ ("\n  profile = " ++ (c.profile ++
       ("\n  compiler = " ++ (c.cc_name ++ (" " ++ (c.cc_version ++ "\n")))))))))))),
      chunk ("build " ++ (scm_cc_path c ++ (".o: cxx " ++ (scm_cc_path c ++ "\n  cppflags = -w -O2\n  cxx_warnings =\n"))))]

/-- The whole buffer of one successful generation pass, as a concatenation of
the per-generator chunk lists. -/
def fullChunks (c : Config) (support : Bool) : List String :=
  headerChunks c ++ commonChunks c ++ ccChunks c support ++ protoChunks c
  ++ resourceChunks c ++ javaScalaChunks c ++ thriftChunks c ++ pythonChunks c
  ++ goChunks c ++ shellChunks c ++ lexYaccChunks c ++ packageChunks c ++ versionChunks c

lemma generate_rule_buf (col : String → String) (s : GenState) (a : RuleArgs) :
    (generate_rule col s a).rules_buf = s.rules_buf ++ ruleChunks col a := rfl

lemma header_buf (c : Config) (s : GenState) :
    (generate_file_header c s).rules_buf = s.rules_buf ++ headerChunks c := by
  simp [generate_file_header, _add_rule, headerChunks]

lemma common_buf (c : Config) (s : GenState) :
    (generate_common_rules c s).rules_buf = s.rules_buf ++ commonChunks c := rfl

lemma ccSteps_buf (c : Config) (support : Bool) (s : GenState) :
    (ccSteps c support s).rules_buf = s.rules_buf ++ ccChunks c support := by
  by_cases h : (c.link_jobs != 0) = true <;>
    simp [ccSteps, generate_cc_vars, generate_rule, _add_rule, ccChunks, linkPoolDeclChunk, h]

lemma generate_cc_rules_ok (c : Config) (s st : GenState)
    (h : generate_cc_rules c s = Except.ok st) :
    ∃ support, st.rules_buf = s.rules_buf ++ ccChunks c support := by
  unfold generate_cc_rules at h
  cases hp : _shell_support_pipefail c.pipefail_probe with
  | error e => rw [hp] at h; cases h
  | ok support =>
      rw [hp] at h
      cases h
      exact ⟨support, ccSteps_buf c support s⟩

lemma generate_proto_rules_ok (c : Config) (s st : GenState)
    (h : generate_proto_rules c s = Except.ok st) :
    st.rules_buf = s.rules_buf ++ protoChunks c := by
  unfold generate_proto_rules at h
  by_cases hp : (c.protoc_go_plugin != "") = true
  · rw [if_pos hp] at h
    by_cases hg : c.go_home = ""
    · rw [if_pos hg] at h; cases h
    · rw [if_neg hg] at h
      cases h
      simp [generate_rule, _add_rule, protoChunks, hp]
  · rw [if_neg hp] at h
    cases h
    simp [generate_rule, _add_rule, protoChunks, hp]

lemma resource_buf (c : Config) (s : GenState) :
    (generate_resource_rules c s).rules_buf = s.rules_buf ++ resourceChunks c := by
  simp [generate_resource_rules, generate_rule, resourceChunks]

lemma javaScala_buf (c : Config) (s : GenState) :
    (generate_java_scala_rules c s).rules_buf = s.rules_buf ++ javaScalaChunks c := by
  simp [generate_java_scala_rules, generate_javac_rules, generate_java_resource_rules,
    generate_java_test_rules, generate_java_binary_rules, generate_scalac_rule,
    generate_scalatest_rule, generate_rule, _add_rule, javaScalaChunks]

lemma thrift_buf (c : Config) (s : GenState) :
    (generate_thrift_rules c s).rules_buf = s.rules_buf ++ thriftChunks c := rfl

lemma python_buf (c : Config) (s : GenState) :
    (generate_python_rules c s).rules_buf = s.rules_buf ++ pythonChunks c := by
  simp [generate_python_rules, generate_rule, pythonChunks]

lemma go_buf (c : Config) (s : GenState) :
    (generate_go_rules c s).rules_buf = s.rules_buf ++ goChunks c := by
  by_cases h : (c.go_home != "" && c.go != "") = true <;>
    simp [generate_go_rules, generate_rule, _add_rule, goChunks, h]

lemma shell_buf (c : Config) (s : GenState) :
    (generate_shell_rules c s).rules_buf = s.rules_buf ++ shellChunks c := by
  simp [generate_shell_rules, generate_rule, shellChunks]

lemma lexYacc_buf (c : Config) (s : GenState) :
    (generate_lex_yacc_rules c s).rules_buf = s.rules_buf ++ lexYaccChunks c := by
  simp [generate_lex_yacc_rules, generate_rule, lexYaccChunks]

lemma package_buf (c : Config) (s : GenState) :
    (generate_package_rules c s).rules_buf = s.rules_buf ++ packageChunks c := by
  simp [generate_package_rules, generate_rule, packageChunks]

lemma version_buf (c : Config) (s : GenState) :
    (generate_version_rules c s).rules_buf = s.rules_buf ++ versionChunks c := by
  simp [generate_version_rules, generate_rule, _add_rule, versionChunks]

/-- Every buffer produced by a successful pass decomposes into the
per-generator chunk lists, for the template-support flag the probe returned. -/
lemma generate_ok_decomp (c : Config) (buf : List String) (h : generate c = Except.ok buf) :
    ∃ support, buf = fullChunks c support := by
  unfold generate at h
  simp only [] at h
  cases hcc : generate_cc_rules c (generate_common_rules c (generate_file_header c ⟨[], []⟩)) with
  | error e => rw [hcc] at h; cases h
  | ok s1 =>
    rw [hcc] at h
    simp only [] at h
    cases hpr : generate_proto_rules c s1 with
    | error e => rw [hpr] at h; cases h
    | ok s2 =>
      rw [hpr] at h
      simp only [] at h
      cases h
      obtain ⟨support, hccbuf⟩ := generate_cc_rules_ok _ _ _ hcc
      refine ⟨support, ?_⟩
      rw [version_buf, package_buf, lexYacc_buf, shell_buf, go_buf, python_buf,
        thrift_buf, javaScala_buf, resource_buf, generate_proto_rules_ok c s1 s2 hpr,
        hccbuf, common_buf, header_buf]
      simp [fullChunks]

/-! ### Pool-ordering machinery -/

/-- Buffer element of a pool assignment line `  pool = X` inside a rule block. -/
def assignChunk (X : String) : String := chunk ("  pool = " ++ X)

/-- Whether a buffer element declares pool `X`: it begins with the
declaration line `pool X`. -/
def IsPoolDecl (X ch : String) : Prop :=
  ∃ r, ch.data = ("pool " ++ (X ++ "\n")).data ++ r

/-- No element of the list is a pool assignment line. -/
def NoAssign (l : List String) : Prop :=
  ∀ ch ∈ l, ∀ X, ch ≠ assignChunk X

/-- Every pool assignment in the list is preceded by a declaration of the
same pool earlier in the list. -/
def SelfOk (l : List String) : Prop :=
  ∀ i X, l.get? i = some (assignChunk X) →
    ∃ j, j < i ∧ ∃ ch, l.get? j = some ch ∧ IsPoolDecl X ch

lemma get2_append (s t : String) (h : 2 < s.data.length) :
    (s ++ t).data.get? 2 = s.data.get? 2 := by
  rw [String.data_append]; exact List.get?_append h

lemma two_lt_len_append_left (s t : String) (h : 2 < s.data.length) :
    2 < (s ++ t).data.length := by
  rw [String.data_append, List.length_append]; omega

lemma assign_data_get2 (X : String) : (assignChunk X).data.get? 2 = some 'p' := by
  show ((("  pool = " ++ X) ++ "\n")).data.get? 2 = some 'p'
  rw [get2_append _ _ (two_lt_len_append_left _ _ (by decide))]
  rw [get2_append _ _ (by decide)]
  decide

lemma ne_assign_of_get2 {ch : String} (h : ch.data.get? 2 ≠ some 'p') (X : String) :
    ch ≠ assignChunk X :=
  fun he => h (he ▸ assign_data_get2 X)

lemma chunk1_get2 (r : String) (h : 2 < r.data.length) :
    (chunk r).data.get? 2 = r.data.get? 2 :=
  get2_append r "\n" h

lemma chunk2_get2 (lit mid : String) (h : 2 < lit.data.length) :
    (chunk (lit ++ mid)).data.get? 2 = lit.data.get? 2 := by
  rw [chunk1_get2 _ (two_lt_len_append_left _ _ h), get2_append _ _ h]

lemma chunk1_ne_assign (lit : String) (h2 : 2 < lit.data.length)
    (hp : lit.data.get? 2 ≠ some 'p') (X : String) : chunk lit ≠ assignChunk X := by
  apply ne_assign_of_get2
  rw [chunk1_get2 lit h2]; exact hp

lemma chunk2_ne_assign (lit mid : String) (h2 : 2 < lit.data.length)
    (hp : lit.data.get? 2 ≠ some 'p') (X : String) : chunk (lit ++ mid) ≠ assignChunk X := by
  apply ne_assign_of_get2
  rw [chunk2_get2 lit mid h2]; exact hp

lemma chunk_empty_ne_assign (X : String) : chunk "" ≠ assignChunk X := by
  apply ne_assign_of_get2
  decide

lemma assignChunk_inj {X Y : String} (h : assignChunk X = assignChunk Y) : X = Y := by
  unfold assignChunk chunk at h
  have hd := congrArg String.data h
  simp only [String.data_append] at hd
  have h1 := List.append_cancel_right hd
  have h2 := List.append_cancel_left h1
  cases X; cases Y
  exact congrArg String.mk h2

lemma mem_optChunk {ch r : String} {b : Bool} (h : ch ∈ optChunk b r) :
    b = true ∧ ch = chunk r := by
  unfold optChunk at h
  split at h
  · simp_all
  · simp at h

/-- Classification of the buffer elements of one rule block: the pool line
(present only when the pool argument is set), and nothing else, is a pool
assignment. -/
lemma ruleChunks_cases {col : String → String} {a : RuleArgs} {ch : String}
    (h : ch ∈ ruleChunks col a) :
    ((a.pool != "") = true ∧ ch = assignChunk a.pool) ∨ ∀ X, ch ≠ assignChunk X := by
  unfold ruleChunks at h
  simp only [List.mem_append] at h
  rcases h with ((((((((h | h) | h) | h) | h) | h) | h) | h) | h) | h
  · simp only [List.mem_cons, List.not_mem_nil, or_false] at h
    rcases h with rfl | rfl
    · exact Or.inr (chunk2_ne_assign "rule " _ (by decide) (by decide))
    · exact Or.inr (chunk2_ne_assign "  command = " _ (by decide) (by decide))
  · obtain ⟨_, rfl⟩ := mem_optChunk h
    exact Or.inr (chunk2_ne_assign "  description = " _ (by decide) (by decide))
  · obtain ⟨_, rfl⟩ := mem_optChunk h
    exact Or.inr (chunk2_ne_assign "  depfile = " _ (by decide) (by decide))
  · obtain ⟨_, rfl⟩ := mem_optChunk h
    exact Or.inr (chunk1_ne_assign "  generator = 1" (by decide) (by decide))
  · obtain ⟨hb, rfl⟩ := mem_optChunk h
    exact Or.inl ⟨hb, rfl⟩
  · obtain ⟨_, rfl⟩ := mem_optChunk h
    exact Or.inr (chunk1_ne_assign "  restat = 1" (by decide) (by decide))
  · obtain ⟨_, rfl⟩ := mem_optChunk h
    exact Or.inr (chunk2_ne_assign "  rspfile = " _ (by decide) (by decide))
  · obtain ⟨_, rfl⟩ := mem_optChunk h
    exact Or.inr (chunk2_ne_assign "  rspfile_content = " _ (by decide) (by decide))
  · obtain ⟨_, rfl⟩ := mem_optChunk h
    exact Or.inr (chunk2_ne_assign "  deps = " _ (by decide) (by decide))
  · simp only [List.mem_cons, List.not_mem_nil, or_false] at h
    subst h
    exact Or.inr chunk_empty_ne_assign

lemma ruleChunks_noAssign {col : String → String} {a : RuleArgs} (h : a.pool = "") :
    NoAssign (ruleChunks col a) := by
  intro ch hch X
  rcases ruleChunks_cases hch with ⟨hb, _⟩ | hne
  · rw [h] at hb; simp at hb
  · exact hne X

lemma ruleChunks_assign_eq {col : String → String} {a : RuleArgs} {ch Y : String}
    (hch : ch ∈ ruleChunks col a) (he : ch = assignChunk Y) : Y = a.pool := by
  rcases ruleChunks_cases hch with ⟨_, heq⟩ | hne
  · rw [he] at heq
    exact assignChunk_inj heq
  · exact absurd he (hne Y)

lemma noAssign_append {a b : List String} (ha : NoAssign a) (hb : NoAssign b) :
    NoAssign (a ++ b) := by
  intro ch hch X
  rcases List.mem_append.mp hch with h | h
  · exact ha ch h X
  · exact hb ch h X

lemma noAssign_singleton {x : String} (hx : ∀ X, x ≠ assignChunk X) : NoAssign [x] := by
  intro ch hch X
  simp only [List.mem_singleton] at hch
  subst hch
  exact hx X

lemma noAssign_nil : NoAssign [] := by
  intro ch hch
  simp at hch

lemma selfOk_of_noAssign {l : List String} (h : NoAssign l) : SelfOk l := by
  intro i X hi
  exact absurd rfl (h _ (List.get?_mem hi) X)

lemma selfOk_append {a b : List String} (ha : SelfOk a) (hb : SelfOk b) :
    SelfOk (a ++ b) := by
  intro i X hi
  by_cases hlt : i < a.length
  · rw [List.get?_append hlt] at hi
    obtain ⟨j, hj, ch, hch, hd⟩ := ha i X hi
    exact ⟨j, hj, ch, by rw [List.get?_append (lt_trans hj hlt)]; exact hch, hd⟩
  · push_neg at hlt
    rw [List.get?_append_right hlt] at hi
    obtain ⟨j, hj, ch, hch, hd⟩ := hb (i - a.length) X hi
    refine ⟨a.length + j, by omega, ch, ?_, hd⟩
    rw [List.get?_append_right (by omega)]
    simpa using hch

/-- A block of one pool declaration followed by rule blocks that only assign
that pool satisfies the ordering invariant. -/
lemma selfOk_declBlock {d X : String} {L : List String}
    (hd : IsPoolDecl X d) (hdn : ∀ Y, d ≠ assignChunk Y)
    (hL : ∀ ch ∈ L, ∀ Y, ch = assignChunk Y → Y = X) : SelfOk (d :: L) := by
  intro i Y hi
  cases i with
  | zero =>
      simp only [List.get?, Option.some.injEq] at hi
      exact absurd hi (hdn Y)
  | succ n =>
      refine ⟨0, Nat.succ_pos n, d, rfl, ?_⟩
      have hmem : assignChunk Y ∈ L := List.get?_mem (by simpa using hi)
      have hYX : Y = X := hL _ hmem Y rfl
      exact hYX ▸ hd

lemma selfOk_cons {x : String} {l : List String} (hx : ∀ X, x ≠ assignChunk X)
    (hl : SelfOk l) : SelfOk (x :: l) := by
  have h := selfOk_append (selfOk_of_noAssign (noAssign_singleton hx)) hl
  simpa using h

lemma noAssign_cons {x : String} {l : List String} (hx : ∀ X, x ≠ assignChunk X)
    (hl : NoAssign l) : NoAssign (x :: l) := by
  intro ch hch X
  rcases List.mem_cons.mp hch with rfl | hm
  · exact hx X
  · exact hl ch hm X

lemma isPoolDecl_golang : IsPoolDecl "golang_pool" (chunk "pool golang_pool\n  depth = 1\n") := by
  refine ⟨("  depth = 1\n\n").data, ?_⟩
  decide

lemma golangDecl_ne_assign : ∀ Y, chunk "pool golang_pool\n  depth = 1\n" ≠ assignChunk Y :=
  chunk1_ne_assign "pool golang_pool\n  depth = 1\n" (by decide) (by decide)

lemma isPoolDecl_link (c : Config) : IsPoolDecl "link_pool" (linkPoolDeclChunk c) := by
  refine ⟨("  depth = " ++ (toString (min c.link_jobs c.build_jobs_num) ++ "\n")).data, ?_⟩
  unfold linkPoolDeclChunk chunk
  have h : ("pool link_pool\n  depth = ").data
      = ("pool " ++ ("link_pool" ++ "\n")).data ++ ("  depth = ").data := by decide
  simp [h, List.append_assoc]

lemma linkDecl_ne_assign (c : Config) : ∀ Y, linkPoolDeclChunk c ≠ assignChunk Y :=
  chunk2_ne_assign "pool link_pool\n  depth = " _ (by decide) (by decide)

/-! ### The ordering invariant holds segment by segment -/

lemma headerChunks_noAssign (c : Config) : NoAssign (headerChunks c) := by
  intro ch hch X
  simp only [headerChunks, List.mem_cons, List.not_mem_nil, or_false] at hch
  rcases hch with rfl | rfl
  · exact chunk2_ne_assign "# build.ninja generated by blade\nninja_required_version = 1.7\nbuilddir = " _ (by decide) (by decide) X
  · exact chunk1_ne_assign "pool heavy_pool\n  depth = 1\n" (by decide) (by decide) X

lemma commonChunks_noAssign (c : Config) : NoAssign (commonChunks c) :=
  ruleChunks_noAssign rfl

lemma ccChunks_selfOk (c : Config) (support : Bool) : SelfOk (ccChunks c support) := by
  unfold ccChunks
  have hvars : ∀ X, chunk (generate_cc_vars_body c) ≠ assignChunk X :=
    chunk2_ne_assign "c_warnings = " _ (by decide) (by decide)
  by_cases h : (c.link_jobs != 0) = true
  · rw [if_pos h, if_pos h]
    simp only [List.append_assoc, List.singleton_append]
    refine selfOk_cons hvars (selfOk_append (selfOk_of_noAssign (ruleChunks_noAssign rfl))
      (selfOk_append (selfOk_of_noAssign (ruleChunks_noAssign rfl))
      (selfOk_append (selfOk_of_noAssign (ruleChunks_noAssign rfl))
      (selfOk_append (selfOk_of_noAssign (ruleChunks_noAssign rfl))
      (selfOk_append (selfOk_of_noAssign (ruleChunks_noAssign rfl)) ?_)))))
    refine selfOk_declBlock (isPoolDecl_link c) (linkDecl_ne_assign c) ?_
    intro ch hmem Y he
    rcases List.mem_append.mp hmem with hm | hm
    · exact ruleChunks_assign_eq hm he
    · rcases List.mem_append.mp hm with hm2 | hm2
      · exact ruleChunks_assign_eq hm2 he
      · exact absurd he (ruleChunks_noAssign rfl ch hm2 Y)
  · rw [if_neg h, if_neg h]
    simp only [List.append_assoc, List.singleton_append, List.nil_append]
    exact selfOk_of_noAssign (noAssign_cons hvars
      (noAssign_append (ruleChunks_noAssign rfl)
      (noAssign_append (ruleChunks_noAssign rfl)
      (noAssign_append (ruleChunks_noAssign rfl)
      (noAssign_append (ruleChunks_noAssign rfl)
      (noAssign_append (ruleChunks_noAssign rfl)
      (noAssign_append (ruleChunks_noAssign rfl)
      (noAssign_append (ruleChunks_noAssign rfl) (ruleChunks_noAssign rfl)))))))))

lemma protoChunks_noAssign (c : Config) : NoAssign (protoChunks c) := by
  unfold protoChunks
  simp only [List.append_assoc, List.singleton_append]
  refine noAssign_cons (chunk1_ne_assign "protocflags =\nprotoccpppluginflags =\nprotocjavapluginflags =\nprotocpythonpluginflags =\n" (by decide) (by decide))
    (noAssign_append (ruleChunks_noAssign rfl)
    (noAssign_append (ruleChunks_noAssign rfl)
    (noAssign_append (ruleChunks_noAssign rfl)
    (noAssign_append (ruleChunks_noAssign rfl) ?_))))
  split
  · exact ruleChunks_noAssign rfl
  · exact noAssign_nil

lemma resourceChunks_noAssign (c : Config) : NoAssign (resourceChunks c) :=
  noAssign_append (ruleChunks_noAssign rfl) (ruleChunks_noAssign rfl)

lemma javaScalaChunks_noAssign (c : Config) : NoAssign (javaScalaChunks c) := by
  unfold javaScalaChunks
  simp only [List.append_assoc, List.singleton_append]
  exact noAssign_cons (chunk1_ne_assign "source_encoding = UTF-8\nclasspath = .\njavacflags =\n" (by decide) (by decide))
    (noAssign_append (ruleChunks_noAssign rfl)
    (noAssign_append (ruleChunks_noAssign rfl)
    (noAssign_append (ruleChunks_noAssign rfl)
    (noAssign_append (ruleChunks_noAssign rfl)
    (noAssign_append (ruleChunks_noAssign rfl)
    (noAssign_append (ruleChunks_noAssign rfl)
    (noAssign_append (ruleChunks_noAssign rfl)
    (noAssign_cons (chunk1_ne_assign "scalacflags = -nowarn\n" (by decide) (by decide))
    (noAssign_append (ruleChunks_noAssign rfl) (ruleChunks_noAssign rfl))))))))))

lemma thriftChunks_noAssign (c : Config) : NoAssign (thriftChunks c) :=
  ruleChunks_noAssign rfl

lemma pythonChunks_noAssign (c : Config) : NoAssign (pythonChunks c) :=
  noAssign_append (ruleChunks_noAssign rfl) (ruleChunks_noAssign rfl)

lemma goChunks_selfOk (c : Config) : SelfOk (goChunks c) := by
  unfold goChunks
  by_cases h : (c.go_home != "" && c.go != "") = true
  · rw [if_pos h]
    simp only [List.append_assoc, List.singleton_append]
    refine selfOk_declBlock isPoolDecl_golang golangDecl_ne_assign ?_
    intro ch hmem Y he
    rcases List.mem_append.mp hmem with hm | hm
    · exact ruleChunks_assign_eq hm he
    · rcases List.mem_append.mp hm with hm2 | hm2
      · exact ruleChunks_assign_eq hm2 he
      · exact ruleChunks_assign_eq hm2 he
  · rw [if_neg h]
    exact selfOk_of_noAssign noAssign_nil

lemma shellChunks_noAssign (c : Config) : NoAssign (shellChunks c) :=
  noAssign_append (ruleChunks_noAssign rfl) (ruleChunks_noAssign rfl)

lemma lexYaccChunks_noAssign (c : Config) : NoAssign (lexYaccChunks c) :=
  noAssign_append (ruleChunks_noAssign rfl) (ruleChunks_noAssign rfl)

lemma packageChunks_noAssign (c : Config) : NoAssign (packageChunks c) :=
  noAssign_append (noAssign_append (ruleChunks_noAssign rfl) (ruleChunks_noAssign rfl))
    (ruleChunks_noAssign rfl)

lemma versionChunks_noAssign (c : Config) : NoAssign (versionChunks c) := by
  unfold versionChunks
  refine noAssign_append (ruleChunks_noAssign rfl)
    (noAssign_cons (chunk2_ne_assign "build " _ (by decide) (by decide))
    (noAssign_cons (chunk2_ne_assign "build " _ (by decide) (by decide)) noAssign_nil))

lemma fullChunks_selfOk (c : Config) (support : Bool) : SelfOk (fullChunks c support) := by
  unfold fullChunks
  simp only [List.append_assoc]
  exact selfOk_append (selfOk_of_noAssign (headerChunks_noAssign c))
    (selfOk_append (selfOk_of_noAssign (commonChunks_noAssign c))
    (selfOk_append (ccChunks_selfOk c support)
    (selfOk_append (selfOk_of_noAssign (protoChunks_noAssign c))
    (selfOk_append (selfOk_of_noAssign (resourceChunks_noAssign c))
    (selfOk_append (selfOk_of_noAssign (javaScalaChunks_noAssign c))
    (selfOk_append (selfOk_of_noAssign (thriftChunks_noAssign c))
    (selfOk_append (selfOk_of_noAssign (pythonChunks_noAssign c))
    (selfOk_append (goChunks_selfOk c)
    (selfOk_append (selfOk_of_noAssign (shellChunks_noAssign c))
    (selfOk_append (selfOk_of_noAssign (lexYaccChunks_noAssign c))
    (selfOk_append (selfOk_of_noAssign (packageChunks_noAssign c))
    (selfOk_of_noAssign (versionChunks_noAssign c)))))))))))))

/-! ### Concrete configurations for closed-input checks -/

/-- A concrete, fully-specified configuration (release profile, link-jobs
limit 2 with a budget of 8, Go toolchain and Go protobuf plugin configured,
module mode on, no module-relative path). -/
def cfgBase : Config where
  options_m := ""
  profile := "release"
  gprof := false
  coverage := false
  build_dir := "build64_release"
  blade_path := "/blade"
  debug_info_level := "mid"
  debug_info_levels := fun _ => ["-g"]
  warnings := ["-Wall"]
  cxx_warnings := []
  c_warnings := []
  cflags := []
  cxxflags := []
  cppflags := []
  linkflags := []
  extra_incs := []
  optimize := ["-O2"]
  securecc := "securecc"
  arflags := ["rcs"]
  link_jobs := 2
  build_jobs_num := 8
  acc_cc := "gcc"
  acc_cxx := "g++"
  acc_ld := "g++"
  filter_cc_flags := fun l _ => l
  cc_name := "gcc"
  cc_version := "10"
  colored := fun s => s
  pipefail_probe := Except.ok 0
  protoc := "protoc"
  protoc_java := ""
  protobuf_incs := ["third"]
  protobuf_java_incs := []
  protoc_go_plugin := "protoc-gen-go"
  protobuf_go_path := "PBGOPATH"
  protoc_go_subplugins := []
  go_home := "/go"
  go := "go"
  go_module_enabled := true
  go_module_relpath := ""
  java_home := ""
  java_version := "8"
  source_version := none
  target_version := none
  jacoco_home := ""
  one_jar_boot_jar := "boot.jar"
  scala_home := ""
  thrift_incs := []
  thrift_gen_params := "cpp"
  thrift := "thrift"
  sys_executable := "python"
  scm_revision := "123"
  scm_url := "http://repo"
  os_path_abs_norm := fun s => s
  os_relpath := fun p _ => p

/-! ### Claim C9 -/

/-- C9: for every generation pass that completes, every pool name referenced
by a pool assignment line of a rule in the emitted buffer is declared by a
pool declaration appearing at a strictly earlier position of the buffer. -/
theorem c9_pool_declared_before_referenced (c : Config) (buf : List String)
    (h : generate c = Except.ok buf) :
    ∀ i X, buf.get? i = some (assignChunk X) →
      ∃ j, j < i ∧ ∃ ch, buf.get? j = some ch ∧ IsPoolDecl X ch := by
  obtain ⟨support, rfl⟩ := generate_ok_decomp c buf h
  exact fullChunks_selfOk c support

/-- Witness for C9 at the concrete configuration `cfgBase`. -/
theorem c9_witness :
    ∃ buf, generate cfgBase = Except.ok buf ∧
      ∀ i X, buf.get? i = some (assignChunk X) →
        ∃ j, j < i ∧ ∃ ch, buf.get? j = some ch ∧ IsPoolDecl X ch := by
  cases hgen : generate cfgBase with
  | error e =>
      have hok : (generate cfgBase).isOk = true := by rfl
      rw [hgen] at hok
      simp [Except.isOk, Except.toBool] at hok
  | ok buf =>
      exact ⟨buf, rfl, c9_pool_declared_before_referenced cfgBase buf hgen⟩

/-! ### Claims C1 and C10: behaviour of the rule registry -/

/-- Sequence of rule declarations starting from the fresh state of
`__init__`. -/
def declareRules (colored : String → String) (l : List RuleArgs) : GenState :=
  l.foldl (generate_rule colored) ⟨[], []⟩

lemma setAdd_nodup {names : List String} {n : String} (h : names.Nodup) :
    (setAdd names n).Nodup := by
  unfold setAdd
  split
  · exact h
  · rename_i h'
    simp [List.nodup_append, h, h']

lemma setAdd_mem {names : List String} {n m : String} :
    m ∈ setAdd names n ↔ m ∈ names ∨ m = n := by
  unfold setAdd
  split
  · rename_i h'
    constructor
    · exact Or.inl
    · rintro (hm | rfl)
      · exact hm
      · exact h'
  · simp

lemma declare_fold_names (col : String → String) (l : List RuleArgs) :
    ∀ s : GenState, s.all_rule_names.Nodup →
      (l.foldl (generate_rule col) s).all_rule_names.Nodup ∧
      ∀ n, n ∈ (l.foldl (generate_rule col) s).all_rule_names ↔
        n ∈ s.all_rule_names ∨ n ∈ l.map RuleArgs.name := by
  induction l with
  | nil =>
      intro s hs
      refine ⟨hs, ?_⟩
      simp
  | cons a l ih =>
      intro s hs
      have hstep : (generate_rule col s a).all_rule_names = setAdd s.all_rule_names a.name := rfl
      have h1 : (generate_rule col s a).all_rule_names.Nodup := by
        rw [hstep]; exact setAdd_nodup hs
      obtain ⟨hn, hm⟩ := ih (generate_rule col s a) h1
      refine ⟨hn, ?_⟩
      intro n
      rw [List.foldl_cons] at *
      rw [hm n, hstep, setAdd_mem]
      simp only [List.map_cons, List.mem_cons]
      tauto

/-- C10: `get_all_rule_names` after any sequence of `generate_rule` calls is a
duplicate-free list whose members are exactly the declared names; moreover a
repeated name raises no error — the call still appends its rule block and
leaves the name set unchanged.  (The iteration order of the underlying Python
set, and hence of the returned list, is unspecified; only the contents are.) -/
theorem c10_rule_names_set_semantics (colored : String → String) (l : List RuleArgs) :
    (get_all_rule_names (declareRules colored l)).Nodup
    ∧ (∀ n, n ∈ get_all_rule_names (declareRules colored l) ↔ n ∈ l.map RuleArgs.name)
    ∧ (∀ s a, a.name ∈ s.all_rule_names →
        (generate_rule colored s a).rules_buf = s.rules_buf ++ ruleChunks colored a
        ∧ (generate_rule colored s a).all_rule_names = s.all_rule_names) := by
  obtain ⟨hn, hm⟩ := declare_fold_names colored l ⟨[], []⟩ (by simp)
  refine ⟨hn, ?_, ?_⟩
  · intro n
    have h := hm n
    simpa using h
  · intro s a ha
    refine ⟨rfl, ?_⟩
    show setAdd s.all_rule_names a.name = s.all_rule_names
    unfold setAdd
    rw [if_pos ha]

/-- Witness for C10: declaring `copy` twice — the second call appends a
second block and the name set stays `["copy"]`. -/
theorem c10_witness :
    "copy" ∈ (generate_rule (fun s => s) ⟨[], []⟩ copyArgs).all_rule_names
    ∧ ((generate_rule (fun s => s) (generate_rule (fun s => s) ⟨[], []⟩ copyArgs) copyArgs).rules_buf
        = (generate_rule (fun s => s) ⟨[], []⟩ copyArgs).rules_buf ++ ruleChunks (fun s => s) copyArgs
      ∧ (generate_rule (fun s => s) (generate_rule (fun s => s) ⟨[], []⟩ copyArgs) copyArgs).all_rule_names
        = (generate_rule (fun s => s) ⟨[], []⟩ copyArgs).all_rule_names) :=
  ⟨by decide,
   (c10_rule_names_set_semantics (fun s => s) [copyArgs]).2.2
     (generate_rule (fun s => s) ⟨[], []⟩ copyArgs) copyArgs (by decide)⟩

/-- Counterexample for C1: declaring the rule name `copy` twice in one pass is
accepted — `generate_rule` has no failure path, the second call appends a
second `rule copy` block to the buffer (two such headers are present
afterwards) and the name set keeps a single entry.  The declaration is not
rejected and generation does not abort. -/
theorem c1_counterexample :
    ((generate_rule (fun s => s) (generate_rule (fun s => s) ⟨[], []⟩ copyArgs) copyArgs).rules_buf.countP
        (fun ch => ch == chunk "rule copy") = 2)
    ∧ (generate_rule (fun s => s) (generate_rule (fun s => s) ⟨[], []⟩ copyArgs) copyArgs).all_rule_names
        = ["copy"] := by
  decide

/-- C1 (amended): declaring a rule whose name was already declared in the
pass does not fail: the call is accepted, the duplicate rule block is appended
to the buffer, and the rule-name set is unchanged (the name is recorded only
once). -/
theorem c1_duplicate_declaration_accepted (colored : String → String) (s : GenState)
    (a : RuleArgs) (h : a.name ∈ s.all_rule_names) :
    (generate_rule colored s a).rules_buf = s.rules_buf ++ ruleChunks colored a
    ∧ (generate_rule colored s a).all_rule_names = s.all_rule_names := by
  refine ⟨rfl, ?_⟩
  show setAdd s.all_rule_names a.name = s.all_rule_names
  unfold setAdd
  rw [if_pos h]

/-- Witness for C1 at a state that already declared `copy`. -/
theorem c1_witness :
    copyArgs.name ∈ (GenState.mk [] ["copy"]).all_rule_names
    ∧ ((generate_rule (fun s => s) ⟨[], ["copy"]⟩ copyArgs).rules_buf
        = (GenState.mk [] ["copy"]).rules_buf ++ ruleChunks (fun s => s) copyArgs
      ∧ (generate_rule (fun s => s) ⟨[], ["copy"]⟩ copyArgs).all_rule_names
        = (GenState.mk [] ["copy"]).all_rule_names) :=
  ⟨by decide, c1_duplicate_declaration_accepted (fun s => s) ⟨[], ["copy"]⟩ copyArgs (by decide)⟩

/-! ### Claim C3: the diagnostic-capture templates and the awk filter -/

lemma template_lengths_ne (cmd : String) :
    (template_pipefail cmd).length ≠ (template_workaround cmd).length := by
  unfold template_pipefail template_workaround
  simp only [String.length_append]
  have h1 : ("set -o pipefail && " : String).length = 19 := rfl
  have h2 : (" -H 2>&1 | awk " : String).length = 15 := rfl
  have h3 : (" > ${out}.H" : String).length = 11 := rfl
  have h4 : (" -H 2> ${out}.err && awk " : String).length = 25 := rfl
  have h5 : (" < ${out}.err > ${out}.H && rm -f ${out}.err" : String).length = 44 := rfl
  rw [h1, h2, h3, h4, h5]
  omega

lemma awkSplitStdout_stopped (ls : List String) : awkSplitStdout true ls = [] := by
  induction ls with
  | nil => rfl
  | cons l ls ih => simp [awkSplitStdout, ih]

lemma awkSplitStdout_spec (ls : List String) :
    awkSplitStdout false ls
      = (ls.takeWhile (fun l => !sentinelStart l)).filter
          (fun l => awkDotsOnly (awkFirstField l)) := by
  induction ls with
  | nil => rfl
  | cons l ls ih =>
      by_cases hs : sentinelStart l = true
      · simp [awkSplitStdout, hs, awkSplitStdout_stopped]
      · have hs' : sentinelStart l = false := by simpa using hs
        by_cases hd : awkDotsOnly (awkFirstField l) = true
        · simp [awkSplitStdout, hs', hd, ih]
        · have hd' : awkDotsOnly (awkFirstField l) = false := by simpa using hd
          simp [awkSplitStdout, hs', hd', ih]

/-- C3 (amended): the two diagnostic-capture command variants are observably
different for every compile command; both run the same awk program over the
diagnostic stream with its standard output redirected to the side file
`${out}.H`, so both produce the same side file; and that side file holds
exactly the lines before the first sentinel line whose first
whitespace-delimited field is a nonempty run of dots — not every line that
merely starts with a dot. -/
theorem c3_diag_filter (cmd : String) (diag : List String) :
    template_pipefail cmd ≠ template_workaround cmd
    ∧ sideFile_pipefail diag = sideFile_workaround diag
    ∧ sideFile_pipefail diag
        = (diag.takeWhile (fun l => !sentinelStart l)).filter
            (fun l => awkDotsOnly (awkFirstField l)) := by
  refine ⟨fun he => template_lengths_ne cmd (congrArg String.length he), rfl, ?_⟩
  exact awkSplitStdout_spec diag

/-- Counterexample for C3: on the stream `["...x y", sentinel]` the first line
starts with one or more dots, so the claim as stated puts it in the side file;
but its first field `...x` is not a run of dots, so the awk program of both
variants sends it to stderr and the side file is empty. -/
theorem c3_counterexample :
    sideFile_pipefail ["...x y", "Multiple include guards may be useful for:"] = []
    ∧ sideFile_workaround ["...x y", "Multiple include guards may be useful for:"] = []
    ∧ claimedSideFile ["...x y", "Multiple include guards may be useful for:"] = ["...x y"] := by
  decide

/-- Witness for C3 at a concrete command and diagnostic stream. -/
theorem c3_witness :
    template_pipefail "gcc -c x.c" ≠ template_workaround "gcc -c x.c"
    ∧ sideFile_pipefail [". /usr/include/a.h", "warning: x", "Multiple include guards may be useful for:", ". b"]
        = [". /usr/include/a.h"] := by
  refine ⟨(c3_diag_filter "gcc -c x.c" []).1, ?_⟩
  rw [(c3_diag_filter "gcc -c x.c" [". /usr/include/a.h", "warning: x", "Multiple include guards may be useful for:", ". b"]).2.2]
  decide

/-! ### Claim C6: the fast/full preprocessing fallback -/

/-- C6: the inclusion-information command is the directives-only fast attempt,
`||`, and an otherwise identical full attempt without the flag; under POSIX
shell semantics of `||`, a nonzero fast exit invokes the full command whose
exit code becomes the exit code of the compound, and a zero fast exit skips
the full command. -/
theorem c6_hdrs_fallback (cc : String) (flags cppflags : List String) (includes : String) :
    (∃ args, _hdrs_command cc flags cppflags includes
        = (cc ++ (" -fdirectives-only " ++ args)) ++ (" || " ++ (cc ++ (" " ++ args))))
    ∧ (∀ fast full : Nat,
        (fast ≠ 0 → shellOrExit fast full = full ∧ shellOrRunsFull fast = true)
        ∧ (fast = 0 → shellOrExit fast full = 0 ∧ shellOrRunsFull fast = false)) := by
  constructor
  · exact ⟨"-o /dev/null -E -H " ++ ((" ".intercalate flags) ++ (" " ++ ((" ".intercalate cppflags) ++ (" -w ${cppflags} " ++ (includes ++ " ${includes} ${in} 2> ${out}"))))), rfl⟩
  · intro fast full
    constructor
    · intro h
      constructor
      · simp [shellOrExit, h]
      · simp [shellOrRunsFull, h]
    · intro h
      subst h
      constructor
      · simp [shellOrExit]
      · simp [shellOrRunsFull]

/-- Witness for C6 at concrete inputs, exercising both fallback behaviours. -/
theorem c6_witness :
    (∃ args, _hdrs_command "gcc" ["-g"] ["-DX"] "-I."
        = ("gcc" ++ (" -fdirectives-only " ++ args)) ++ (" || " ++ ("gcc" ++ (" " ++ args))))
    ∧ (1 ≠ 0)
    ∧ shellOrExit 1 7 = 7 ∧ shellOrRunsFull 1 = true
    ∧ shellOrExit 0 7 = 0 ∧ shellOrRunsFull 0 = false := by
  have h := c6_hdrs_fallback "gcc" ["-g"] ["-DX"] "-I."
  refine ⟨h.1, by decide, ((h.2 1 7).1 (by decide)).1, ((h.2 1 7).1 (by decide)).2,
    ((h.2 0 7).2 rfl).1, ((h.2 0 7).2 rfl).2⟩

/-! ### Claim C8: failure of the capability probe itself -/

/-- Counterexample for C8: when the probe process cannot be spawned
(`subprocess.call` raises `OSError`), `_shell_support_pipefail` does not
return `false` (capability absent); the exception propagates, and the whole
generation pass aborts with that error instead of proceeding with the
portable template. -/
theorem c8_counterexample :
    _shell_support_pipefail (Except.error "OSError") ≠ Except.ok false
    ∧ _shell_support_pipefail (Except.error "OSError") = Except.error "OSError"
    ∧ generate { cfgBase with pipefail_probe := Except.error "OSError" }
        = Except.error "OSError" := by
  refine ⟨by simp [_shell_support_pipefail, subprocess_call, Except.map], rfl, ?_⟩
  rfl

/-- C8 (amended): only a probe that runs to completion is interpreted — a
nonzero exit status selects the portable template (the probe reports no
support); but a probe whose process cannot be spawned raises, and the error
propagates out of `_shell_support_pipefail` and aborts the generation pass. -/
theorem c8_probe_failure_propagates (code : Int) (msg : String) (c : Config)
    (hcode : code ≠ 0) (hprobe : c.pipefail_probe = Except.error msg) :
    _shell_support_pipefail (Except.ok code) = Except.ok false
    ∧ _shell_support_pipefail (Except.error msg) = Except.error msg
    ∧ generate c = Except.error msg := by
  refine ⟨?_, rfl, ?_⟩
  · simp [_shell_support_pipefail, subprocess_call, Except.map, hcode]
  · unfold generate
    simp only []
    unfold generate_cc_rules
    rw [hprobe]
    rfl

/-- Witness for C8 at a concrete exit code and configuration. -/
theorem c8_witness :
    (1 : Int) ≠ 0
    ∧ { cfgBase with pipefail_probe := Except.error "OSError" }.pipefail_probe
        = Except.error "OSError"
    ∧ (_shell_support_pipefail (Except.ok 1) = Except.ok false
      ∧ _shell_support_pipefail (Except.error "OSError") = Except.error "OSError"
      ∧ generate { cfgBase with pipefail_probe := Except.error "OSError" }
          = Except.error "OSError") :=
  ⟨by decide, rfl,
   c8_probe_failure_propagates 1 "OSError" { cfgBase with pipefail_probe := Except.error "OSError" }
     (by decide) rfl⟩

/-! ### Claim C5: missing Go home with a Go protobuf plugin is fatal -/

lemma proto_fatal {c : Config} (s : GenState)
    (hplugin : (c.protoc_go_plugin != "") = true) (hhome : c.go_home = "") :
    generate_proto_rules c s = Except.error "\"go_config.go_home\" is not configured" := by
  unfold generate_proto_rules
  rw [if_pos hplugin, if_pos hhome]
  rfl

/-- C5: when a Go-targeting protobuf plugin is configured but Go home is
absent, `generate_proto_rules` fails with the fatal configuration error
(modelled `console.fatal`) instead of emitting the Go rule, and the whole
generation pass aborts with that error, so no partial script is produced. -/
theorem c5_missing_go_home_fatal (c : Config) (s : GenState) (n : Int)
    (hplugin : c.protoc_go_plugin ≠ "") (hhome : c.go_home = "")
    (hprobe : c.pipefail_probe = Except.ok n) :
    generate_proto_rules c s = Except.error "\"go_config.go_home\" is not configured"
    ∧ generate c = Except.error "\"go_config.go_home\" is not configured" := by
  have hp : (c.protoc_go_plugin != "") = true := by
    simpa using hplugin
  refine ⟨proto_fatal s hp hhome, ?_⟩
  unfold generate
  simp only []
  unfold generate_cc_rules
  rw [hprobe]
  simp only [_shell_support_pipefail, subprocess_call, Except.map]
  rw [proto_fatal _ hp hhome]

/-- Witness for C5 at a concrete configuration with a Go protobuf plugin but
no Go home. -/
theorem c5_witness :
    { cfgBase with go_home := "" }.protoc_go_plugin ≠ ""
    ∧ { cfgBase with go_home := "" }.go_home = ""
    ∧ { cfgBase with go_home := "" }.pipefail_probe = Except.ok 0
    ∧ (generate_proto_rules { cfgBase with go_home := "" } ⟨[], []⟩
        = Except.error "\"go_config.go_home\" is not configured"
      ∧ generate { cfgBase with go_home := "" }
        = Except.error "\"go_config.go_home\" is not configured") :=
  ⟨by decide, rfl, rfl,
   c5_missing_go_home_fatal { cfgBase with go_home := "" } ⟨[], []⟩ 0 (by decide) rfl rfl⟩

/-! ### Claim C2: the Go protobuf output directory -/

/-- Counterexample for C2: at a configuration with the Go plugin configured,
module mode enabled and a module-relative path set (`"m"`), the emitted
`protogo` rule resolves its output directory to `<go_home>/src` (`/go/src`),
not to the configured `protobuf_go_path` (`PBGOPATH`) as the claim states. -/
theorem c2_counterexample :
    proto_go_out { cfgBase with go_module_relpath := "m" } = "/go/src"
    ∧ proto_go_out { cfgBase with go_module_relpath := "m" } ≠ "PBGOPATH"
    ∧ ∃ st, generate_proto_rules { cfgBase with go_module_relpath := "m" } ⟨[], []⟩ = Except.ok st
        ∧ ("  command = protoc --proto_path=. -I=third -I=`dirname ${in}` --plugin=protoc-gen-go=protoc-gen-go --go_out=/go/src ${in}\n") ∈ st.rules_buf := by
  refine ⟨by decide, by decide, ?_⟩
  refine ⟨_, rfl, ?_⟩
  decide

/-- C2 (amended): with a Go plugin configured, Go home present and module mode
enabled, the `protogo` output directory equals the configured
`protobuf_go_path` exactly when no module-relative path is set; when a
module-relative path is set it falls back to `<go_home>/src`.  The resolved
directory is what the emitted rule carries in its `--go_out=` argument. -/
theorem c2_protogo_outdir (c : Config)
    (hplugin : c.protoc_go_plugin ≠ "") (hhome : c.go_home ≠ "")
    (hmod : c.go_module_enabled = true) (hsub : c.protoc_go_subplugins = []) :
    (c.go_module_relpath = "" → proto_go_out c = c.protobuf_go_path)
    ∧ (c.go_module_relpath ≠ "" → proto_go_out c = pjoin c.go_home "src")
    ∧ ∀ s, ∃ st, generate_proto_rules c s = Except.ok st
        ∧ chunk ("  command = " ++ (c.protoc ++ (" --proto_path=. " ++
            ((protoc_import_path_option c.protobuf_incs) ++
            (" -I=`dirname ${in}` --plugin=protoc-gen-go=" ++ (c.protoc_go_plugin ++
            (" --go_out=" ++ ((proto_go_out c) ++ " ${in}")))))))) ∈ st.rules_buf := by
  have hp : (c.protoc_go_plugin != "") = true := by simpa using hplugin
  refine ⟨?_, ?_, ?_⟩
  · intro h
    unfold proto_go_out proto_go_outdir
    simp [hsub, hmod, h]
  · intro h
    have h' : (c.go_module_relpath == "") = false := by
      simpa using h
    unfold proto_go_out proto_go_outdir
    simp [hsub, hmod, h']
  · intro s
    unfold generate_proto_rules
    rw [if_pos hp, if_neg hhome]
    refine ⟨_, rfl, ?_⟩
    simp only [generate_rule_buf, List.mem_append]
    right
    simp [ruleChunks, protogoArgs, RuleArgs.simple, optChunk]

/-- Witness for C2 at `cfgBase` (module mode on, no module-relative path). -/
theorem c2_witness :
    cfgBase.protoc_go_plugin ≠ "" ∧ cfgBase.go_home ≠ "" ∧ cfgBase.go_module_enabled = true
    ∧ cfgBase.protoc_go_subplugins = [] ∧ cfgBase.go_module_relpath = ""
    ∧ proto_go_out cfgBase = cfgBase.protobuf_go_path :=
  ⟨by decide, by decide, rfl, rfl, rfl,
   (c2_protogo_outdir cfgBase (by decide) (by decide) rfl rfl).1 rfl⟩

/-! ### Claim C4: the link pool -/

lemma data_get_append (i : Nat) (s t : String) (h : i < s.data.length) :
    (s ++ t).data.get? i = s.data.get? i := by
  rw [String.data_append]; exact List.get?_append h

lemma lt_len_append_left (i : Nat) (s t : String) (h : i < s.data.length) :
    i < (s ++ t).data.length := by
  rw [String.data_append, List.length_append]; omega

lemma chunk2_get (i : Nat) (lit mid : String) (h : i < lit.data.length) :
    (chunk (lit ++ mid)).data.get? i = lit.data.get? i := by
  rw [chunk, data_get_append i _ _ (lt_len_append_left i _ _ h), data_get_append i _ _ h]

lemma chunk1_get (i : Nat) (lit : String) (h : i < lit.data.length) :
    (chunk lit).data.get? i = lit.data.get? i :=
  data_get_append i lit "\n" h

lemma poolDecl_data_get0 {X ch : String} (h : IsPoolDecl X ch) :
    ch.data.get? 0 = some 'p' := by
  obtain ⟨r, hr⟩ := h
  rw [hr, List.get?_append (lt_len_append_left 0 "pool " (X ++ "\n") (by decide)),
    data_get_append 0 _ _ (by decide)]
  decide

lemma ne_poolDecl_of_get0 {ch : String} (h : ch.data.get? 0 ≠ some 'p') (X : String) :
    ¬ IsPoolDecl X ch :=
  fun hd => h (poolDecl_data_get0 hd)

lemma chunk2_ne_poolDecl (lit mid : String) (h0 : 0 < lit.data.length)
    (hp : lit.data.get? 0 ≠ some 'p') (X : String) : ¬ IsPoolDecl X (chunk (lit ++ mid)) := by
  apply ne_poolDecl_of_get0
  rw [chunk2_get 0 lit mid h0]; exact hp

lemma chunk1_ne_poolDecl (lit : String) (h0 : 0 < lit.data.length)
    (hp : lit.data.get? 0 ≠ some 'p') (X : String) : ¬ IsPoolDecl X (chunk lit) := by
  apply ne_poolDecl_of_get0
  rw [chunk1_get 0 lit h0]; exact hp

lemma chunk_empty_ne_poolDecl (X : String) : ¬ IsPoolDecl X (chunk "") := by
  apply ne_poolDecl_of_get0
  decide

/-- No buffer element of a rule block is a pool declaration (every line of a
rule block starts with `rule `, two blanks, or is empty). -/
lemma ruleChunks_noPoolDecl {col : String → String} {a : RuleArgs} {ch : String}
    (h : ch ∈ ruleChunks col a) : ∀ X, ¬ IsPoolDecl X ch := by
  unfold ruleChunks at h
  simp only [List.mem_append] at h
  rcases h with ((((((((h | h) | h) | h) | h) | h) | h) | h) | h) | h
  · simp only [List.mem_cons, List.not_mem_nil, or_false] at h
    rcases h with rfl | rfl
    · exact chunk2_ne_poolDecl "rule " _ (by decide) (by decide)
    · exact chunk2_ne_poolDecl "  command = " _ (by decide) (by decide)
  · obtain ⟨_, rfl⟩ := mem_optChunk h
    exact chunk2_ne_poolDecl "  description = " _ (by decide) (by decide)
  · obtain ⟨_, rfl⟩ := mem_optChunk h
    exact chunk2_ne_poolDecl "  depfile = " _ (by decide) (by decide)
  · obtain ⟨_, rfl⟩ := mem_optChunk h
    exact chunk1_ne_poolDecl "  generator = 1" (by decide) (by decide)
  · obtain ⟨_, rfl⟩ := mem_optChunk h
    exact chunk2_ne_poolDecl "  pool = " _ (by decide) (by decide)
  · obtain ⟨_, rfl⟩ := mem_optChunk h
    exact chunk1_ne_poolDecl "  restat = 1" (by decide) (by decide)
  · obtain ⟨_, rfl⟩ := mem_optChunk h
    exact chunk2_ne_poolDecl "  rspfile = " _ (by decide) (by decide)
  · obtain ⟨_, rfl⟩ := mem_optChunk h
    exact chunk2_ne_poolDecl "  rspfile_content = " _ (by decide) (by decide)
  · obtain ⟨_, rfl⟩ := mem_optChunk h
    exact chunk2_ne_poolDecl "  deps = " _ (by decide) (by decide)
  · simp only [List.mem_cons, List.not_mem_nil, or_false] at h
    subst h
    exact chunk_empty_ne_poolDecl

/-- C4: when a link-jobs limit is configured, `generate_cc_rules` declares a
`link_pool` of depth `min(link_jobs, build_jobs_num)` and both the `link` and
`solink` rule blocks (which appear in the emitted chunk sequence) carry a
`pool = link_pool` assignment; when no limit is configured, no chunk declares
`link_pool` and no chunk assigns any pool. -/
theorem c4_link_pool (c : Config) (support : Bool) :
    (c.link_jobs ≠ 0 →
      linkPoolDeclChunk c ∈ ccChunks c support
      ∧ linkPoolDeclChunk c
          = chunk ("pool link_pool\n  depth = " ++ toString (min c.link_jobs c.build_jobs_num))
      ∧ List.IsInfix (ruleChunks c.colored (linkArgs c "link_pool")) (ccChunks c support)
      ∧ assignChunk "link_pool" ∈ ruleChunks c.colored (linkArgs c "link_pool")
      ∧ List.IsInfix (ruleChunks c.colored (solinkArgs c "link_pool")) (ccChunks c support)
      ∧ assignChunk "link_pool" ∈ ruleChunks c.colored (solinkArgs c "link_pool"))
    ∧ (c.link_jobs = 0 →
      (∀ ch ∈ ccChunks c support, ∀ X, ch ≠ assignChunk X)
      ∧ (∀ ch ∈ ccChunks c support, ∀ X, ¬ IsPoolDecl X ch)) := by
  constructor
  · intro hjobs
    have h : (c.link_jobs != 0) = true := by simpa using hjobs
    have hcc : ccChunks c support
        = (([chunk (generate_cc_vars_body c)] ++ ruleChunks c.colored (ccArgs c support)
            ++ ruleChunks c.colored (cxxArgs c support)
            ++ ruleChunks c.colored (securecccompileArgs c)
            ++ ruleChunks c.colored (secureccArgs c)
            ++ ruleChunks c.colored (arArgs c) ++ [linkPoolDeclChunk c])
           ++ ruleChunks c.colored (linkArgs c "link_pool"))
          ++ (ruleChunks c.colored (solinkArgs c "link_pool")
           ++ ruleChunks c.colored stripArgs) := by
      unfold ccChunks
      rw [if_pos h, if_pos h]
      simp [List.append_assoc]
    refine ⟨?_, rfl, ?_, ?_, ?_, ?_⟩
    · rw [hcc]; simp
    · rw [hcc]
      exact ⟨_, _, rfl⟩
    · simp [ruleChunks, optChunk, linkArgs, RuleArgs.simple, assignChunk]
    · rw [hcc]
      refine ⟨[chunk (generate_cc_vars_body c)] ++ ruleChunks c.colored (ccArgs c support)
            ++ ruleChunks c.colored (cxxArgs c support)
            ++ ruleChunks c.colored (securecccompileArgs c)
            ++ ruleChunks c.colored (secureccArgs c)
            ++ ruleChunks c.colored (arArgs c) ++ [linkPoolDeclChunk c]
            ++ ruleChunks c.colored (linkArgs c "link_pool"),
          ruleChunks c.colored stripArgs, ?_⟩
      simp [List.append_assoc]
    · simp [ruleChunks, optChunk, solinkArgs, RuleArgs.simple, assignChunk]
  · intro hjobs
    have h : (c.link_jobs != 0) = false := by simpa using hjobs
    have hnot : ¬ ((c.link_jobs != 0) = true) := by simp [h]
    have hcc : ccChunks c support
        = [chunk (generate_cc_vars_body c)] ++ ruleChunks c.colored (ccArgs c support)
            ++ ruleChunks c.colored (cxxArgs c support)
            ++ ruleChunks c.colored (securecccompileArgs c)
            ++ ruleChunks c.colored (secureccArgs c)
            ++ ruleChunks c.colored (arArgs c)
            ++ ruleChunks c.colored (linkArgs c "")
            ++ ruleChunks c.colored (solinkArgs c "")
            ++ ruleChunks c.colored stripArgs := by
      unfold ccChunks
      rw [if_neg hnot, if_neg hnot]
      simp
    rw [hcc]
    constructor
    · intro ch hch X
      simp only [List.mem_append] at hch
      rcases hch with ((((((((hm | hm) | hm) | hm) | hm) | hm) | hm) | hm) | hm)
      · simp only [List.mem_singleton] at hm
        subst hm
        exact chunk2_ne_assign "c_warnings = " _ (by decide) (by decide) X
      all_goals first
        | exact ruleChunks_noAssign rfl ch hm X
    · intro ch hch X
      simp only [List.mem_append] at hch
      rcases hch with ((((((((hm | hm) | hm) | hm) | hm) | hm) | hm) | hm) | hm)
      · simp only [List.mem_singleton] at hm
        subst hm
        exact chunk2_ne_poolDecl "c_warnings = " _ (by decide) (by decide) X
      all_goals first
        | exact ruleChunks_noPoolDecl hm X

/-- Witness for C4 at the concrete configuration `cfgBase`
(`link_jobs = 2`, budget `8`). -/
theorem c4_witness :
    cfgBase.link_jobs ≠ 0
    ∧ (linkPoolDeclChunk cfgBase ∈ ccChunks cfgBase true
      ∧ linkPoolDeclChunk cfgBase
          = chunk ("pool link_pool\n  depth = " ++ toString (min cfgBase.link_jobs cfgBase.build_jobs_num))
      ∧ List.IsInfix (ruleChunks cfgBase.colored (linkArgs cfgBase "link_pool")) (ccChunks cfgBase true)
      ∧ assignChunk "link_pool" ∈ ruleChunks cfgBase.colored (linkArgs cfgBase "link_pool")
      ∧ List.IsInfix (ruleChunks cfgBase.colored (solinkArgs cfgBase "link_pool")) (ccChunks cfgBase true)
      ∧ assignChunk "link_pool" ∈ ruleChunks cfgBase.colored (solinkArgs cfgBase "link_pool")) :=
  ⟨by decide, (c4_link_pool cfgBase true).1 (by decide)⟩

/-! ### Claim C7: the Go rules and their pool -/

/-- C7: when either Go home or the Go executable is absent, `generate_go_rules`
returns its input state unchanged (no rules, no pool, no error); when both are
configured, the appended chunks are exactly the depth-1 `golang_pool`
declaration followed by the `gopackage`, `gocommand` and `gotest` rule blocks,
each carrying a `pool = golang_pool` assignment — the pool depth is the
literal `1` whatever the rest of the configuration is. -/
theorem c7_go_rules (c : Config) (s : GenState) :
    ((c.go_home = "" ∨ c.go = "") → generate_go_rules c s = s)
    ∧ (c.go_home ≠ "" ∧ c.go ≠ "" →
      (generate_go_rules c s).rules_buf
        = s.rules_buf ++ (chunk "pool golang_pool\n  depth = 1\n"
            :: (ruleChunks c.colored (gopackageArgs c)
               ++ ruleChunks c.colored (gocommandArgs c)
               ++ ruleChunks c.colored (gotestArgs c)))
      ∧ assignChunk "golang_pool" ∈ ruleChunks c.colored (gopackageArgs c)
      ∧ assignChunk "golang_pool" ∈ ruleChunks c.colored (gocommandArgs c)
      ∧ assignChunk "golang_pool" ∈ ruleChunks c.colored (gotestArgs c)
      ∧ (generate_go_rules c s).all_rule_names
          = setAdd (setAdd (setAdd s.all_rule_names "gopackage") "gocommand") "gotest") := by
  constructor
  · intro hcase
    have h : (c.go_home != "" && c.go != "") = false := by
      rcases hcase with h | h <;> simp [h]
    unfold generate_go_rules
    rw [if_neg (by simp [h])]
  · rintro ⟨h1, h2⟩
    have h : (c.go_home != "" && c.go != "") = true := by
      simp [h1, h2]
    refine ⟨?_, ?_, ?_, ?_, ?_⟩
    · unfold generate_go_rules
      rw [if_pos h]
      simp [generate_rule, _add_rule]
    · simp [ruleChunks, optChunk, gopackageArgs, RuleArgs.simple, assignChunk]
    · simp [ruleChunks, optChunk, gocommandArgs, RuleArgs.simple, assignChunk]
    · simp [ruleChunks, optChunk, gotestArgs, RuleArgs.simple, assignChunk]
    · unfold generate_go_rules
      rw [if_pos h]
      rfl

/-- Witness for C7 at the concrete configuration `cfgBase` (Go configured). -/
theorem c7_witness :
    (cfgBase.go_home ≠ "" ∧ cfgBase.go ≠ "")
    ∧ ((generate_go_rules cfgBase ⟨[], []⟩).rules_buf
        = [] ++ (chunk "pool golang_pool\n  depth = 1\n"
            :: (ruleChunks cfgBase.colored (gopackageArgs cfgBase)
               ++ ruleChunks cfgBase.colored (gocommandArgs cfgBase)
               ++ ruleChunks cfgBase.colored (gotestArgs cfgBase)))
      ∧ assignChunk "golang_pool" ∈ ruleChunks cfgBase.colored (gopackageArgs cfgBase)
      ∧ assignChunk "golang_pool" ∈ ruleChunks cfgBase.colored (gocommandArgs cfgBase)
      ∧ assignChunk "golang_pool" ∈ ruleChunks cfgBase.colored (gotestArgs cfgBase)
      ∧ (generate_go_rules cfgBase ⟨[], []⟩).all_rule_names
          = setAdd (setAdd (setAdd [] "gopackage") "gocommand") "gotest") :=
  ⟨⟨by decide, by decide⟩, (c7_go_rules cfgBase ⟨[], []⟩).2 ⟨by decide, by decide⟩⟩

end Blade
